import Mathlib

/-!
A verification development for the RouteForward pedestrian/transit
simulation core (`src/lib/simulation/PathfindingSystem.ts`,
`CrowdDynamicsSystem.ts`, `PedestrianAgentFactory.ts`,
`SimulationEngine.ts`), embedded shallowly in Lean.

Modelling conventions:
* JavaScript numbers are modelled as exact rationals (`ℚ`).
* `calculateDistance` (the haversine formula) is transcendental
  (sin/cos/atan2/sqrt over doubles), so it is abstracted as an explicit
  function parameter `dist : Point → Point → ℚ`; theorems quantify over
  every such function, which in particular covers the haversine one.
* Likewise `Math.sqrt`, `Math.cos`, `Math.sin` and `Math.PI` are packaged
  in an abstract `RealFns` parameter.
* The `crypto`-sourced uniform random draws are an explicit stream
  `r : ℕ → ℚ` threaded by index, and `Date.now()` readings are explicit
  parameters.
* The A* `while` loop and the parent-chain reconstruction use fuel; fuel
  exhaustion returns the `[start, goal]` fallback exactly like the
  source's "no path found" case.  The loop closes one node id per
  iteration and closed ids never re-enter the open set, so the fuel
  supplied by `findPath` (nodes + total connection count + 1) is never
  exhausted on real executions.
* JavaScript `Infinity` (initial `gCost`/`fCost` of a fresh `PathNode`)
  is modelled by `⊤` in `WithTop ℚ`.
-/

structure Point where
  lat : ℚ
  lng : ℚ
deriving DecidableEq

structure Vec2 where
  x : ℚ
  y : ℚ
deriving DecidableEq

inductive Accessibility where
  | full
  | limited
  | none
deriving DecidableEq

/-- The `accessibilityRequired?: 'full' | 'limited'` argument of `findPath`
(absent = `undefined`). -/
inductive AccessReq where
  | full
  | limited
deriving DecidableEq

structure Obstacle where
  id : String
  position : Point
  radius : ℚ
deriving DecidableEq

structure SidewalkNode where
  id : String
  position : Point
  connections : List String
  width : ℚ
  accessibility : Accessibility
  crowdCapacity : ℚ
deriving DecidableEq

structure SidewalkNetwork where
  nodes : List SidewalkNode
  obstacles : List Obstacle
deriving DecidableEq

/-- The filter applied in `findClosestNode` and in the A* neighbor
expansion: a node is skipped iff a requirement was passed, the node's
accessibility is `'none'`, and the requirement is `'full'`. -/
def nodeExcluded (req : Option AccessReq) (node : SidewalkNode) : Prop :=
  req = some AccessReq.full ∧ node.accessibility = Accessibility.none

instance (req : Option AccessReq) (node : SidewalkNode) :
    Decidable (nodeExcluded req node) := by
  unfold nodeExcluded; infer_instance

/-- One iteration of the `findClosestNode` scan: keep the strictly
closest non-excluded node seen so far; the accumulator `Option.none`
stands for the initial `minDistance = Infinity` state, so the first
non-excluded candidate is always taken. -/
def closestStep (dist : Point → Point → ℚ) (point : Point) (req : Option AccessReq)
    (best : Option (SidewalkNode × ℚ)) (node : SidewalkNode) : Option (SidewalkNode × ℚ) :=
  if nodeExcluded req node then best
  else
    match best with
    | Option.none => some (node, dist point node.position)
    | some (b, m) =>
      if dist point node.position < m then some (node, dist point node.position)
      else some (b, m)

/-- `PathfindingSystem.findClosestNode`: linear scan over `network.nodes`. -/
def findClosestNode (dist : Point → Point → ℚ) (net : SidewalkNetwork)
    (point : Point) (req : Option AccessReq) : Option SidewalkNode :=
  (net.nodes.foldl (closestStep dist point req) Option.none).map Prod.fst

/-- The mutable `PathNode` record of the A* search.  `parent` stores the
id of the parent node; the source stores an object reference into the
single per-id `nodeMap` entry, which the id faithfully represents. -/
structure PathNode where
  id : String
  position : Point
  gCost : WithTop ℚ
  hCost : ℚ
  fCost : WithTop ℚ
  parent : Option String
deriving DecidableEq

/-- `nodeMap.get(id)` on the assoc-list model of the `Map`. -/
def mapFind (nm : List (String × PathNode)) (id : String) : Option PathNode :=
  (nm.find? (fun e => e.1 == id)).map Prod.snd

/-- `nodeMap.set(id, pn)`: update in place when present, append otherwise. -/
def mapInsert (nm : List (String × PathNode)) (id : String) (pn : PathNode) :
    List (String × PathNode) :=
  if (nm.find? (fun e => e.1 == id)).isSome then
    nm.map (fun e => if e.1 == id then (id, pn) else e)
  else nm ++ [(id, pn)]

/-- State of the A* `while` loop: the open set and closed set hold node
ids; `nodeMap` holds the unique `PathNode` object per id. -/
structure AState where
  openSet : List String
  closedSet : List String
  nodeMap : List (String × PathNode)

def fCostOf (nm : List (String × PathNode)) (id : String) : WithTop ℚ :=
  match mapFind nm id with
  | some pn => pn.fCost
  | Option.none => ⊤

/-- Stable insertion used to model `openSet.sort((a, b) => a.fCost - b.fCost)`
(ascending, equal keys keep their relative order). -/
def insertByF (nm : List (String × PathNode)) (x : String) :
    List String → List String
  | [] => [x]
  | y :: ys => if fCostOf nm x ≤ fCostOf nm y then x :: y :: ys else y :: insertByF nm x ys

def sortOpenSet (nm : List (String × PathNode)) : List String → List String
  | [] => []
  | x :: xs => insertByF nm x (sortOpenSet nm xs)

/-- One neighbor-expansion step of the A* loop body (the body of the
`for (const neighborId of networkNode.connections)` loop). -/
def expandNeighbor (dist : Point → Point → ℚ) (net : SidewalkNetwork)
    (req : Option AccessReq) (goalNode : SidewalkNode) (current : PathNode)
    (st : AState) (neighborId : String) : AState :=
  if st.closedSet.contains neighborId then st
  else
    match net.nodes.find? (fun n => n.id == neighborId) with
    | Option.none => st
    | some nnode =>
      if nodeExcluded req nnode then st
      else
        let gCost : WithTop ℚ := current.gCost + ((dist current.position nnode.position : ℚ) : WithTop ℚ)
        let hCost : ℚ := dist nnode.position goalNode.position
        let fresh : PathNode :=
          { id := neighborId
            position := nnode.position
            gCost := ⊤
            hCost := hCost
            fCost := ⊤
            parent := Option.none }
        let existing := mapFind st.nodeMap neighborId
        let pn := existing.getD fresh
        let nm1 := if existing.isSome then st.nodeMap else mapInsert st.nodeMap neighborId fresh
        if gCost < pn.gCost then
          let pn' : PathNode :=
            { pn with
                gCost := gCost
                fCost := gCost + ((hCost : ℚ) : WithTop ℚ)
                parent := some current.id }
          let nm2 := mapInsert nm1 neighborId pn'
          let open2 :=
            if st.openSet.contains neighborId then st.openSet else st.openSet ++ [neighborId]
          { openSet := open2, closedSet := st.closedSet, nodeMap := nm2 }
        else
          { st with nodeMap := nm1 }

/-- Parent-chain walk of the path reconstruction (`while (current) { path.push ... }`). -/
def reconstructPath (nm : List (String × PathNode)) : ℕ → String → List Point
  | 0, _ => []
  | fuel + 1, id =>
    match mapFind nm id with
    | Option.none => []
    | some pn =>
      match pn.parent with
      | Option.none => [pn.position]
      | some p => pn.position :: reconstructPath nm fuel p

/-- Reconstruction starting from the popped `currentNode` object itself. -/
def reconstructFrom (nm : List (String × PathNode)) (fuel : ℕ) (pn : PathNode) : List Point :=
  pn.position ::
    (match pn.parent with
     | Option.none => []
     | some p => reconstructPath nm fuel p)

/-- `path[0] = start` (JavaScript index assignment on a non-empty array). -/
def setHead (l : List Point) (p : Point) : List Point :=
  match l with
  | [] => []
  | _ :: xs => p :: xs

/-- `path[path.length - 1] = goal`. -/
def setLast (p : Point) : List Point → List Point
  | [] => []
  | [_] => [p]
  | x :: y :: xs => x :: setLast p (y :: xs)

/-- The two endpoint assignments performed after `path.reverse()`. -/
def finalizePath (l : List Point) (start goal : Point) : List Point :=
  setLast goal (setHead l start)

/-- The non-goal part of one loop iteration: look up the popped node's
network entry (`continue` when absent, leaving the state unchanged) and
expand all its connections. -/
def expandAll (dist : Point → Point → ℚ) (net : SidewalkNetwork)
    (req : Option AccessReq) (goalNode : SidewalkNode) (current : PathNode)
    (st1 : AState) : AState :=
  match net.nodes.find? (fun n => n.id == current.id) with
  | Option.none => st1
  | some networkNode =>
    networkNode.connections.foldl (expandNeighbor dist net req goalNode current) st1

/-- The A* `while (openSet.length > 0)` loop, with fuel.  The
`mapFind = none` branch is unreachable (every open id is in the map) and
returns the same fallback as fuel exhaustion. -/
def astarLoop (dist : Point → Point → ℚ) (net : SidewalkNetwork)
    (req : Option AccessReq) (goalNode : SidewalkNode) (start goal : Point) :
    ℕ → AState → List Point
  | 0, _ => [start, goal]
  | fuel + 1, st =>
    match sortOpenSet st.nodeMap st.openSet with
    | [] => [start, goal]
    | currentId :: rest =>
      match mapFind st.nodeMap currentId with
      | Option.none => [start, goal]
      | some current =>
        if current.id = goalNode.id then
          finalizePath ((reconstructFrom st.nodeMap (st.nodeMap.length + 1) current).reverse)
            start goal
        else
          astarLoop dist net req goalNode start goal fuel
            (expandAll dist net req goalNode current
              { openSet := rest
                closedSet := st.closedSet ++ [currentId]
                nodeMap := st.nodeMap })

/-- `PathfindingSystem.findPath`: snap both endpoints, run A*, fall back
to the direct `[start, goal]` segment when snapping fails. -/
def findPath (dist : Point → Point → ℚ) (net : SidewalkNetwork)
    (start goal : Point) (req : Option AccessReq) : List Point :=
  match findClosestNode dist net start req, findClosestNode dist net goal req with
  | some startNode, some goalNode =>
    let h0 : ℚ := dist startNode.position goalNode.position
    let startPN : PathNode :=
      { id := startNode.id
        position := startNode.position
        gCost := ((0 : ℚ) : WithTop ℚ)
        hCost := h0
        fCost := ((0 : ℚ) : WithTop ℚ) + ((h0 : ℚ) : WithTop ℚ)
        parent := Option.none }
    let fuel := net.nodes.length + (net.nodes.map (fun n => n.connections.length)).sum + 1
    astarLoop dist net req goalNode start goal fuel
      { openSet := [startPN.id], closedSet := [], nodeMap := [(startPN.id, startPN)] }
  | _, _ => [start, goal]


-- ### Agents, weather, and the agent factory

/-- Abstract versions of the transcendental `Math` functions used by the
source (`Math.sqrt`, `Math.cos`, `Math.sin`) together with `Math.PI`;
theorems quantify over every such bundle. -/
structure RealFns where
  sqrt : ℚ → ℚ
  cos : ℚ → ℚ
  sin : ℚ → ℚ
  pi : ℚ

/-- `CrowdDynamicsSystem.toLocalCoords`: short-range equirectangular
projection centred on `origin`. -/
def toLocalCoords (fns : RealFns) (point origin : Point) : Vec2 :=
  { x := (point.lng - origin.lng) * 111320 * fns.cos (origin.lat * fns.pi / 180)
    y := (point.lat - origin.lat) * 110540 }

/-- `CrowdDynamicsSystem.normalize` with its zero-vector guard (renamed
from the source's `normalize`, which collides with a Mathlib name). -/
def normalizeVec (fns : RealFns) (v : Vec2) : Vec2 :=
  let length := fns.sqrt (v.x * v.x + v.y * v.y)
  if length = 0 then { x := 0, y := 0 }
  else { x := v.x / length, y := v.y / length }

/-- `CrowdDynamicsSystem.limit`: clamp a vector's magnitude. -/
def limit (fns : RealFns) (v : Vec2) (maxMagnitude : ℚ) : Vec2 :=
  let length := fns.sqrt (v.x * v.x + v.y * v.y)
  if length > maxMagnitude then
    { x := v.x / length * maxMagnitude, y := v.y / length * maxMagnitude }
  else v

inductive AgentType where
  | normal
  | wheelchair
  | mobility_aid
  | elderly
  | child
deriving DecidableEq

inductive WeatherType where
  | clear
  | rain
  | snow
  | fog
  | wind
deriving DecidableEq

structure WeatherConditions where
  temperature : ℚ
  precipitation : ℚ
  windSpeed : ℚ
  visibility : ℚ
  type : WeatherType
deriving DecidableEq

inductive StopType where
  | bus
  | rail
deriving DecidableEq

structure TransitStop where
  id : String
  name : String
  location : Point
  routes : List String
  type : StopType
deriving DecidableEq

inductive RouteType where
  | bus
  | rail
  | walking
deriving DecidableEq

structure RouteSegment where
  id : String
  name : String
  coordinates : List Point
  color : Option String
  type : RouteType
deriving DecidableEq

/-- The enhanced `PedestrianAgent` record.  `lastUpdate` stores a
`Date.now()` reading, modelled as a rational. -/
structure PedestrianAgent where
  id : String
  origin : Point
  destination : Point
  walkingSpeed : ℚ
  currentPosition : Point
  route : Option (List Point)
  velocity : Vec2
  agentType : AgentType
  maxSpeed : ℚ
  targetStop : Option TransitStop
  pathIndex : ℕ
  weatherSensitivity : ℚ
  crowdAvoidanceRadius : ℚ
  isAtDestination : Bool
  lastUpdate : ℚ
deriving DecidableEq

structure CrowdDynamicsConfig where
  separationRadius : ℚ
  alignmentRadius : ℚ
  cohesionRadius : ℚ
  maxForce : ℚ
  avoidanceForce : ℚ
deriving DecidableEq

structure AccessibilityConfig where
  wheelchairSpeedFactor : ℚ
  mobilityAidSpeedFactor : ℚ
  elderlySpeedFactor : ℚ
  childSpeedFactor : ℚ
deriving DecidableEq

structure PedestrianSimConfig where
  maxAgents : ℤ
  timeStep : ℚ
  crowdDynamics : CrowdDynamicsConfig
  accessibility : AccessibilityConfig
  weather : WeatherConditions
  sidewalkNetwork : SidewalkNetwork
deriving DecidableEq

-- The four `modifier *=` steps of the weather speed modifier, one per
-- conditional line of `PedestrianAgentFactory.getWeatherSpeedModifier`.

def applyTemperature (weather : WeatherConditions) (sensitivity m : ℚ) : ℚ :=
  if weather.temperature < 0 then m * (1 - sensitivity * (3/10))
  else if weather.temperature > 30 then m * (1 - sensitivity * (2/10))
  else m

def applyPrecipitation (weather : WeatherConditions) (sensitivity m : ℚ) : ℚ :=
  if weather.precipitation > 0 then m * (1 - sensitivity * weather.precipitation * (4/10))
  else m

def applyWind (weather : WeatherConditions) (sensitivity m : ℚ) : ℚ :=
  if weather.windSpeed > 10 then m * (1 - sensitivity * (2/10)) else m

def applyVisibility (weather : WeatherConditions) (sensitivity m : ℚ) : ℚ :=
  if weather.visibility < 8/10 then m * (1 - sensitivity * (1 - weather.visibility) * (3/10))
  else m

/-- `PedestrianAgentFactory.getWeatherSpeedModifier`: the four penalties
applied to an initial modifier of 1, floored at 0.3. -/
def getWeatherSpeedModifier (weather : WeatherConditions) (sensitivity : ℚ) : ℚ :=
  max (applyVisibility weather sensitivity
        (applyWind weather sensitivity
          (applyPrecipitation weather sensitivity
            (applyTemperature weather sensitivity 1)))) (3/10)

/-- `SimulationEngine.calculateWeatherFactor`: a line-for-line duplicate
of the factory's modifier in the source. -/
def calculateWeatherFactor (weather : WeatherConditions) (sensitivity : ℚ) : ℚ :=
  max (applyVisibility weather sensitivity
        (applyWind weather sensitivity
          (applyPrecipitation weather sensitivity
            (applyTemperature weather sensitivity 1)))) (3/10)

/-- `PedestrianAgentFactory.selectRandomAgentType` given the uniform
draw `x`. -/
def selectRandomAgentType (x : ℚ) : AgentType :=
  if x < 75/100 then AgentType.normal
  else if x < 85/100 then AgentType.elderly
  else if x < 92/100 then AgentType.child
  else if x < 97/100 then AgentType.wheelchair
  else AgentType.mobility_aid

def getSpeedModifier (acc : AccessibilityConfig) : AgentType → ℚ
  | AgentType.normal => 1
  | AgentType.elderly => acc.elderlySpeedFactor
  | AgentType.child => acc.childSpeedFactor
  | AgentType.wheelchair => acc.wheelchairSpeedFactor
  | AgentType.mobility_aid => acc.mobilityAidSpeedFactor

/-- `PedestrianAgentFactory.getWeatherSensitivity` given the uniform
draw `x` it makes internally. -/
def getWeatherSensitivity (x : ℚ) : AgentType → ℚ
  | AgentType.normal => 3/10 + x * (4/10)
  | AgentType.elderly => 6/10 + x * (3/10)
  | AgentType.child => 5/10 + x * (4/10)
  | AgentType.wheelchair => 7/10 + x * (2/10)
  | AgentType.mobility_aid => 6/10 + x * (3/10)

def getCrowdAvoidanceRadius : AgentType → ℚ
  | AgentType.normal => 3/2
  | AgentType.elderly => 2
  | AgentType.child => 1
  | AgentType.wheelchair => 5/2
  | AgentType.mobility_aid => 11/5

/-- `PedestrianAgentFactory.createAgent`.  Random draws come from the
stream `r` starting at index `k`; the factory's `agentCounter` and the
`Date.now()` reading are explicit.  Returns the agent, the next unused
stream index, and the new counter.  Note the source stores the
weather-adjusted speed in BOTH `walkingSpeed` and `maxSpeed`, and draws
`getWeatherSensitivity` twice (once for the speed computation, once for
the stored `weatherSensitivity` field). -/
def createAgent (cfg : PedestrianSimConfig) (r : ℕ → ℚ) (now : ℚ)
    (origin destination : Point) (targetStop : Option TransitStop)
    (agentType : Option AgentType) (k counter : ℕ) :
    PedestrianAgent × ℕ × ℕ :=
  let counter1 := counter + 1
  let idStr := "pedestrian_" ++ toString counter1
  let selected :=
    match agentType with
    | some t => (t, k)
    | Option.none => (selectRandomAgentType (r k), k + 1)
  let selectedAgentType := selected.1
  let k1 := selected.2
  let baseSpeed := 80 + r k1 * 54
  let k2 := k1 + 1
  let speedModifier := getSpeedModifier cfg.accessibility selectedAgentType
  let maxSpeed := baseSpeed * speedModifier
  let sens1 := getWeatherSensitivity (r k2) selectedAgentType
  let k3 := k2 + 1
  let weatherModifier := getWeatherSpeedModifier cfg.weather sens1
  let currentSpeed := maxSpeed * weatherModifier
  let crowdAvoidanceRadius := getCrowdAvoidanceRadius selectedAgentType
  let sens2 := getWeatherSensitivity (r k3) selectedAgentType
  let k4 := k3 + 1
  ({ id := idStr
     origin := origin
     destination := destination
     walkingSpeed := currentSpeed
     currentPosition := origin
     route := Option.none
     velocity := { x := 0, y := 0 }
     agentType := selectedAgentType
     maxSpeed := currentSpeed
     targetStop := targetStop
     pathIndex := 0
     weatherSensitivity := sens2
     crowdAvoidanceRadius := crowdAvoidanceRadius
     isAtDestination := false
     lastUpdate := now }, k4, counter1)

structure TripPair where
  origin : Point
  destination : Point
  targetStop : Option TransitStop
deriving DecidableEq

/-- `PedestrianAgentFactory.createAgentBatch`: one agent per pair, with
the 20% rush-hour slowdown applied to `walkingSpeed` and `maxSpeed`
synced to it. -/
def createAgentBatch (cfg : PedestrianSimConfig) (r : ℕ → ℚ) (now : ℚ)
    (rushHour : Bool) : List TripPair → ℕ → ℕ → List PedestrianAgent × ℕ × ℕ
  | [], k, counter => ([], k, counter)
  | pair :: rest, k, counter =>
    let created := createAgent cfg r now pair.origin pair.destination pair.targetStop
      Option.none k counter
    let agent0 := created.1
    let agent :=
      if rushHour then
        { agent0 with walkingSpeed := agent0.walkingSpeed * (8/10), maxSpeed := agent0.walkingSpeed * (8/10) }
      else agent0
    let more := createAgentBatch cfg r now rushHour rest created.2.1 created.2.2
    (agent :: more.1, more.2.1, more.2.2)

/-- `PedestrianAgentFactory.generateStopCentricTrips`: `count` trips
around a stop; polar sampling with 2, then 1 or 3 further draws per
iteration depending on the 70% branch. -/
def generateStopCentricTrips (fns : RealFns) (r : ℕ → ℚ) (transitStop : TransitStop)
    (radius : ℚ) : ℕ → ℕ → List TripPair × ℕ
  | 0, k => ([], k)
  | count + 1, k =>
    let angle := r k * 2 * fns.pi
    let distance := r (k + 1) * radius
    let latOffset := distance * fns.cos angle / 110540
    let lngOffset := distance * fns.sin angle /
      (111320 * fns.cos (transitStop.location.lat * fns.pi / 180))
    let origin : Point :=
      { lat := transitStop.location.lat + latOffset
        lng := transitStop.location.lng + lngOffset }
    let chosen :=
      if r (k + 2) < 7/10 then (transitStop.location, k + 3)
      else (({ lat := transitStop.location.lat + (r (k + 3) - 1/2) * (1/100)
               lng := transitStop.location.lng + (r (k + 4) - 1/2) * (1/100) } : Point), k + 5)
    let rest := generateStopCentricTrips fns r transitStop radius count chosen.2
    ({ origin := origin, destination := chosen.1, targetStop := some transitStop } :: rest.1,
      rest.2)

/-- `PedestrianAgentFactory.updateAgent`: Euler integration of the
position; a no-op for agents flagged `isAtDestination`. -/
def updateAgent (fns : RealFns) (agent : PedestrianAgent) (deltaTime now : ℚ) :
    PedestrianAgent :=
  if agent.isAtDestination then agent
  else
    let speedMetersPerSecond := agent.walkingSpeed / 60
    let deltaX := agent.velocity.x * speedMetersPerSecond * deltaTime
    let deltaY := agent.velocity.y * speedMetersPerSecond * deltaTime
    let latChange := deltaY / 110540
    let lngChange := deltaX / (111320 * fns.cos (agent.currentPosition.lat * fns.pi / 180))
    { agent with
        currentPosition :=
          { lat := agent.currentPosition.lat + latChange
            lng := agent.currentPosition.lng + lngChange }
        lastUpdate := now }

-- ### Crowd dynamics

/-- `CrowdDynamicsSystem.calculateGoalForce`.  The source mutates
`agent.pathIndex` and `agent.isAtDestination`; the model returns the
force together with the updated agent. -/
def calculateGoalForce (fns : RealFns) (agent : PedestrianAgent) :
    Vec2 × PedestrianAgent :=
  match agent.route with
  | Option.none => ({ x := 0, y := 0 }, agent)
  | some route =>
    if route.length = 0 ∨ agent.isAtDestination = true then ({ x := 0, y := 0 }, agent)
    else
      match route.get? agent.pathIndex with
      | Option.none => ({ x := 0, y := 0 }, agent)
      | some nextWaypoint =>
        if fns.sqrt ((toLocalCoords fns nextWaypoint agent.currentPosition).x *
              (toLocalCoords fns nextWaypoint agent.currentPosition).x +
            (toLocalCoords fns nextWaypoint agent.currentPosition).y *
              (toLocalCoords fns nextWaypoint agent.currentPosition).y) < 2 then
          if route.length - 1 ≤ min (agent.pathIndex + 1) (route.length - 1) then
            ({ x := 0, y := 0 },
              { agent with
                  pathIndex := min (agent.pathIndex + 1) (route.length - 1)
                  isAtDestination := true })
          else
            ({ x := (normalizeVec fns (toLocalCoords fns nextWaypoint agent.currentPosition)).x *
                  agent.maxSpeed - agent.velocity.x
               y := (normalizeVec fns (toLocalCoords fns nextWaypoint agent.currentPosition)).y *
                  agent.maxSpeed - agent.velocity.y },
              { agent with pathIndex := min (agent.pathIndex + 1) (route.length - 1) })
        else
          ({ x := (normalizeVec fns (toLocalCoords fns nextWaypoint agent.currentPosition)).x *
                agent.maxSpeed - agent.velocity.x
             y := (normalizeVec fns (toLocalCoords fns nextWaypoint agent.currentPosition)).y *
                agent.maxSpeed - agent.velocity.y },
            agent)

/-- Repeated `calculateGoalForce` calls (discarding the force). -/
def goalForceIter (fns : RealFns) : ℕ → PedestrianAgent → PedestrianAgent
  | 0, agent => agent
  | n + 1, agent => goalForceIter fns n (calculateGoalForce fns agent).2

structure CrowdMetrics where
  density : ℚ
  averageSpeed : ℚ
  flowRate : ℚ
  congestionLevel : ℚ
deriving DecidableEq

/-- `CrowdDynamicsSystem.calculateCrowdMetrics`. -/
def calculateCrowdMetrics (dist : Point → Point → ℚ) (fns : RealFns)
    (agents : List PedestrianAgent) (center : Point) (radius : ℚ) : CrowdMetrics :=
  let agentsInArea := agents.filter (fun agent =>
    decide (dist agent.currentPosition center ≤ radius))
  let areaSize := fns.pi * radius * radius
  let density := (agentsInArea.length : ℚ) / areaSize
  let averageSpeed :=
    if 0 < agentsInArea.length then
      (agentsInArea.foldl
        (fun sum agent =>
          sum + fns.sqrt (agent.velocity.x * agent.velocity.x +
            agent.velocity.y * agent.velocity.y)) 0) / (agentsInArea.length : ℚ)
    else 0
  let flowRate := density * averageSpeed * 60
  let maxDensity : ℚ := 5
  let densityFactor := min (density / maxDensity) 1
  let speedFactor := 1 - averageSpeed / 80
  let congestionLevel := max densityFactor speedFactor
  { density := density
    averageSpeed := averageSpeed
    flowRate := flowRate
    congestionLevel := min congestionLevel 1 }

/-- `CrowdDynamicsSystem.separation`. -/
def separation (dist : Point → Point → ℚ) (fns : RealFns) (cfg : CrowdDynamicsConfig)
    (agent : PedestrianAgent) (neighbors : List PedestrianAgent) : Vec2 :=
  let acc := neighbors.foldl
    (fun (acc : Vec2 × ℕ) neighbor =>
      let distance := dist agent.currentPosition neighbor.currentPosition
      if 0 < distance ∧ distance < cfg.separationRadius then
        let agentLocal := toLocalCoords fns agent.currentPosition agent.currentPosition
        let neighborLocal := toLocalCoords fns neighbor.currentPosition agent.currentPosition
        let normalized := normalizeVec fns
          { x := agentLocal.x - neighborLocal.x, y := agentLocal.y - neighborLocal.y }
        let weight := 1 / distance
        ({ x := acc.1.x + normalized.x * weight, y := acc.1.y + normalized.y * weight }, acc.2 + 1)
      else acc)
    ({ x := 0, y := 0 }, 0)
  if 0 < acc.2 then
    let normalized := normalizeVec fns { x := acc.1.x / (acc.2 : ℚ), y := acc.1.y / (acc.2 : ℚ) }
    { x := normalized.x * agent.maxSpeed - agent.velocity.x
      y := normalized.y * agent.maxSpeed - agent.velocity.y }
  else { x := 0, y := 0 }

/-- `CrowdDynamicsSystem.alignment`. -/
def alignment (dist : Point → Point → ℚ) (fns : RealFns) (cfg : CrowdDynamicsConfig)
    (agent : PedestrianAgent) (neighbors : List PedestrianAgent) : Vec2 :=
  let acc := neighbors.foldl
    (fun (acc : Vec2 × ℕ) neighbor =>
      let distance := dist agent.currentPosition neighbor.currentPosition
      if 0 < distance ∧ distance < cfg.alignmentRadius then
        ({ x := acc.1.x + neighbor.velocity.x, y := acc.1.y + neighbor.velocity.y }, acc.2 + 1)
      else acc)
    ({ x := 0, y := 0 }, 0)
  if 0 < acc.2 then
    let normalized := normalizeVec fns { x := acc.1.x / (acc.2 : ℚ), y := acc.1.y / (acc.2 : ℚ) }
    { x := normalized.x * agent.maxSpeed - agent.velocity.x
      y := normalized.y * agent.maxSpeed - agent.velocity.y }
  else { x := 0, y := 0 }

/-- `CrowdDynamicsSystem.seek`. -/
def seek (fns : RealFns) (agent : PedestrianAgent) (target : Vec2) : Vec2 :=
  let desired := normalizeVec fns target
  { x := desired.x * agent.maxSpeed - agent.velocity.x
    y := desired.y * agent.maxSpeed - agent.velocity.y }

/-- `CrowdDynamicsSystem.cohesion`. -/
def cohesion (dist : Point → Point → ℚ) (fns : RealFns) (cfg : CrowdDynamicsConfig)
    (agent : PedestrianAgent) (neighbors : List PedestrianAgent) : Vec2 :=
  let acc := neighbors.foldl
    (fun (acc : Vec2 × ℕ) neighbor =>
      let distance := dist agent.currentPosition neighbor.currentPosition
      if 0 < distance ∧ distance < cfg.cohesionRadius then
        let neighborLocal := toLocalCoords fns neighbor.currentPosition agent.currentPosition
        ({ x := acc.1.x + neighborLocal.x, y := acc.1.y + neighborLocal.y }, acc.2 + 1)
      else acc)
    ({ x := 0, y := 0 }, 0)
  if 0 < acc.2 then
    seek fns agent { x := acc.1.x / (acc.2 : ℚ), y := acc.1.y / (acc.2 : ℚ) }
  else { x := 0, y := 0 }

/-- `CrowdDynamicsSystem.calculateFlockingForces`. -/
def calculateFlockingForces (dist : Point → Point → ℚ) (fns : RealFns)
    (cfg : CrowdDynamicsConfig) (agent : PedestrianAgent)
    (allAgents : List PedestrianAgent) : Vec2 :=
  let neighbors := allAgents.filter (fun other =>
    decide (other.id ≠ agent.id ∧
      dist agent.currentPosition other.currentPosition <
        max cfg.separationRadius (max cfg.alignmentRadius cfg.cohesionRadius)))
  let sep := separation dist fns cfg agent neighbors
  let align := alignment dist fns cfg agent neighbors
  let coh := cohesion dist fns cfg agent neighbors
  limit fns
    { x := sep.x * 2 + align.x + coh.x, y := sep.y * 2 + align.y + coh.y }
    cfg.maxForce

/-- `PathfindingSystem.getObstacleAvoidanceForce`. -/
def getObstacleAvoidanceForce (dist : Point → Point → ℚ) (fns : RealFns)
    (net : SidewalkNetwork) (position : Point) (velocity : Vec2)
    (lookAheadDistance : ℚ) : Vec2 :=
  let speed := fns.sqrt (velocity.x * velocity.x + velocity.y * velocity.y)
  if speed = 0 then { x := 0, y := 0 }
  else
    let normalizedVel : Vec2 := { x := velocity.x / speed, y := velocity.y / speed }
    let lookAheadPos : Point :=
      { lat := position.lat + normalizedVel.y * lookAheadDistance / 111000
        lng := position.lng + normalizedVel.x * lookAheadDistance / 111000 }
    net.obstacles.foldl
      (fun (avoidanceForce : Vec2) obstacle =>
        let distanceToObstacle := dist position obstacle.position
        let distanceToLookAhead := dist lookAheadPos obstacle.position
        if distanceToObstacle < obstacle.radius + 3 ∨ distanceToLookAhead < obstacle.radius + 2 then
          let avoidDirection0 : Vec2 := { x := -normalizedVel.y, y := normalizedVel.x }
          let obstacleRelX := obstacle.position.lng - position.lng
          let obstacleRelY := obstacle.position.lat - position.lat
          let cross := normalizedVel.x * obstacleRelY - normalizedVel.y * obstacleRelX
          let avoidDirection :=
            if cross < 0 then ({ x := -avoidDirection0.x, y := -avoidDirection0.y } : Vec2)
            else avoidDirection0
          let force := max 0 (1 - distanceToObstacle / (obstacle.radius + 3))
          { x := avoidanceForce.x + avoidDirection.x * force * 10
            y := avoidanceForce.y + avoidDirection.y * force * 10 }
        else avoidanceForce)
      { x := 0, y := 0 }


-- ### Simulation engine

structure TimeWindow where
  start : ℚ
  endTime : ℚ
  speedMultiplier : ℚ
deriving DecidableEq

structure SimulationConfig where
  duration : ℚ
  timeStep : ℚ
  rushHourPeriods : List TimeWindow
  walkingSpeedNormal : ℚ
  walkingSpeedRushHour : ℚ
  busSpeedNormal : ℚ
  busSpeedRushHour : ℚ
deriving DecidableEq

/-- The engine's default `SimulationConfig` from the constructor. -/
def defaultSimulationConfig : SimulationConfig :=
  { duration := 60
    timeStep := 1/2
    rushHourPeriods :=
      [{ start := 420, endTime := 540, speedMultiplier := 7/10 },
       { start := 1020, endTime := 1140, speedMultiplier := 7/10 }]
    walkingSpeedNormal := 80
    walkingSpeedRushHour := 70
    busSpeedNormal := 400
    busSpeedRushHour := 300 }

/-- Truncation toward zero, as used by the JavaScript `%` operator. -/
def jsTrunc (q : ℚ) : ℤ := if 0 ≤ q then ⌊q⌋ else ⌈q⌉

/-- The JavaScript remainder `a % b`. -/
def jsMod (a b : ℚ) : ℚ := a - b * (jsTrunc (a / b) : ℚ)

/-- First matching rush-hour window wins (the source returns from inside
the loop). -/
def findRushMultiplier : List TimeWindow → ℚ → ℚ
  | [], _ => 1
  | period :: rest, t =>
    if period.start ≤ t ∧ t ≤ period.endTime then period.speedMultiplier
    else findRushMultiplier rest t

/-- `SimulationEngine.getSpeedMultiplier`. -/
def getSpeedMultiplier (cfg : SimulationConfig) (currentTime : ℚ) : ℚ :=
  findRushMultiplier cfg.rushHourPeriods (jsMod currentTime 1440)

/-- The `type && stop.type !== type` skip condition of `findNearestStop`. -/
def stopTypeMismatch (ty : Option StopType) (stop : TransitStop) : Prop :=
  match ty with
  | some t => stop.type ≠ t
  | Option.none => False

instance (ty : Option StopType) (stop : TransitStop) :
    Decidable (stopTypeMismatch ty stop) := by
  unfold stopTypeMismatch
  cases ty <;> infer_instance

/-- One iteration of the `findNearestStop` scan. -/
def nearestStep (dist : Point → Point → ℚ) (point : Point) (ty : Option StopType)
    (best : Option (TransitStop × ℚ)) (stop : TransitStop) : Option (TransitStop × ℚ) :=
  if stopTypeMismatch ty stop then best
  else
    match best with
    | Option.none => some (stop, dist point stop.location)
    | some (b, m) =>
      if dist point stop.location < m then some (stop, dist point stop.location)
      else some (b, m)

/-- `SimulationEngine.findNearestStop`. -/
def findNearestStop (dist : Point → Point → ℚ) (stops : List TransitStop)
    (point : Point) (ty : Option StopType) : Option TransitStop :=
  (stops.foldl (nearestStep dist point ty) Option.none).map Prod.fst

/-- `SimulationEngine.calculateWalkingTime`. -/
def calculateWalkingTime (dist : Point → Point → ℚ) (cfg : SimulationConfig)
    (origin destination : Point) (currentTime : ℚ) : ℚ :=
  let distance := dist origin destination
  let speedMultiplier := getSpeedMultiplier cfg currentTime
  let adjustedSpeed :=
    if speedMultiplier < 1 then cfg.walkingSpeedRushHour else cfg.walkingSpeedNormal
  distance / adjustedSpeed

/-- `SimulationEngine.calculateRouteDistance`: sum of consecutive
coordinate distances. -/
def calculateRouteDistance (dist : Point → Point → ℚ) (route : RouteSegment) : ℚ :=
  (route.coordinates.zip route.coordinates.tail).foldl
    (fun totalDistance pr => totalDistance + dist pr.1 pr.2) 0

/-- `SimulationEngine.calculateBusTime` (the two stop arguments are
unused in the source as well). -/
def calculateBusTime (dist : Point → Point → ℚ) (cfg : SimulationConfig)
    (route : RouteSegment) (_originStop _destinationStop : TransitStop)
    (currentTime : ℚ) : ℚ :=
  let totalDistance := calculateRouteDistance dist route
  let speedMultiplier := getSpeedMultiplier cfg currentTime
  let adjustedSpeed :=
    if speedMultiplier < 1 then cfg.busSpeedRushHour else cfg.busSpeedNormal
  let waitTime : ℚ := 5 + (if speedMultiplier < 1 then 3 else 0)
  waitTime + totalDistance / adjustedSpeed

inductive TravelMode where
  | walking
  | bus
  | rail
  | mixed
deriving DecidableEq

structure TravelTimeResult where
  origin : Point
  destination : Point
  duration : ℚ
  confidence : ℚ
  route : List RouteSegment
  mode : TravelMode
deriving DecidableEq

/-- `SimulationEngine.createWalkingRoute`. -/
def createWalkingRoute (origin destination : Point) (duration confidence : ℚ) :
    TravelTimeResult :=
  { origin := origin
    destination := destination
    duration := duration
    confidence := confidence
    route := [{ id := "walking"
                name := "Walking"
                coordinates := [origin, destination]
                color := Option.none
                type := RouteType.walking }]
    mode := TravelMode.walking }

/-- `SimulationEngine.findDirectTransitRoute`: first shared route name,
looked up among the engine's routes (`|| null` when the lookup fails). -/
def findDirectTransitRoute (routes : List RouteSegment)
    (originStop destinationStop : TransitStop) : Option RouteSegment :=
  match originStop.routes.filter (fun route => destinationStop.routes.contains route) with
  | [] => Option.none
  | routeId :: _ => routes.find? (fun rr => rr.name == routeId)

/-- `SimulationEngine.calculateTransitRoute`: total duration and the
three-leg route. -/
def calculateTransitRoute (dist : Point → Point → ℚ) (cfg : SimulationConfig)
    (origin destination : Point) (route : RouteSegment)
    (originStop destinationStop : TransitStop) (currentTime : ℚ) :
    ℚ × List RouteSegment :=
  let walkToStop := calculateWalkingTime dist cfg origin originStop.location currentTime
  let busTime := calculateBusTime dist cfg route originStop destinationStop currentTime
  let walkFromStop := calculateWalkingTime dist cfg destinationStop.location destination currentTime
  (walkToStop + busTime + walkFromStop,
    [{ id := "walk-to-stop"
       name := "Walk to stop"
       coordinates := [origin, originStop.location]
       color := Option.none
       type := RouteType.walking },
     route,
     { id := "walk-from-stop"
       name := "Walk from stop"
       coordinates := [destinationStop.location, destination]
       color := Option.none
       type := RouteType.walking }])

/-- `SimulationEngine.findOptimalRoute`. -/
def findOptimalRoute (dist : Point → Point → ℚ) (cfg : SimulationConfig)
    (routes : List RouteSegment) (stops : List TransitStop)
    (origin destination : Point) (currentTime : ℚ) : TravelTimeResult :=
  let walkingTime := calculateWalkingTime dist cfg origin destination currentTime
  if dist origin destination < 2000 then
    createWalkingRoute origin destination walkingTime (9/10)
  else
    match findNearestStop dist stops origin (some StopType.bus),
          findNearestStop dist stops destination (some StopType.bus) with
    | some originStop, some destinationStop =>
      (match findDirectTransitRoute routes originStop destinationStop with
       | Option.none => createWalkingRoute origin destination walkingTime (7/10)
       | some transitRoute =>
         let transitDetails :=
           calculateTransitRoute dist cfg origin destination transitRoute originStop
             destinationStop currentTime
         if transitDetails.1 < walkingTime then
           { origin := origin
             destination := destination
             duration := transitDetails.1
             confidence := 8/10
             route := transitDetails.2
             mode := TravelMode.mixed }
         else createWalkingRoute origin destination walkingTime (8/10))
    | _, _ => createWalkingRoute origin destination walkingTime (8/10)

inductive Scenario where
  | current
  | proposed
deriving DecidableEq

structure SimulationResult where
  travelTimes : List TravelTimeResult
  averageWaitTime : ℚ
  totalSimulationTime : ℚ
  confidence : ℚ
  scenario : Scenario
deriving DecidableEq

structure ODPair where
  origin : Point
  destination : Point
deriving DecidableEq

/-- `SimulationEngine.simulate`.  `elapsedMs` models the wall-clock
difference `Date.now() - startTime`; no other part of the result depends
on it. -/
def simulate (dist : Point → Point → ℚ) (cfg : SimulationConfig)
    (routes : List RouteSegment) (stops : List TransitStop)
    (pairs : List ODPair) (timeOfDay : ℚ) (elapsedMs : ℚ) : SimulationResult :=
  let travelTimes := pairs.map (fun pair =>
    findOptimalRoute dist cfg routes stops pair.origin pair.destination timeOfDay)
  let nonWalking := travelTimes.filter (fun t => decide (t.mode ≠ TravelMode.walking))
  let averageWaitTime :=
    (nonWalking.foldl (fun sum _ => sum + 5) 0) / max 1 (nonWalking.length : ℚ)
  let confidence :=
    (travelTimes.foldl (fun sum t => sum + t.confidence) 0) / (travelTimes.length : ℚ)
  { travelTimes := travelTimes
    averageWaitTime := averageWaitTime
    totalSimulationTime := elapsedMs / 1000
    confidence := confidence
    scenario := Scenario.current }

/-- `SimulationEngine.calculateAverageTravelTime`. -/
def calculateAverageTravelTime (travelTimes : List TravelTimeResult) : ℚ :=
  (travelTimes.foldl (fun sum t => sum + t.duration) 0) / (travelTimes.length : ℚ)

/-- JavaScript `new Set(...)` iteration order: first occurrences kept. -/
def jsSetDedup : List String → List String → List String
  | [], _ => []
  | x :: xs, seen =>
    if seen.contains x then jsSetDedup xs seen else x :: jsSetDedup xs (x :: seen)

/-- `SimulationEngine.extractAffectedRoutes`. -/
def extractAffectedRoutes (currentResult proposedResult : SimulationResult) :
    List String :=
  (jsSetDedup
    ((currentResult.travelTimes.flatMap (fun t => t.route.map (fun rr => rr.name))) ++
      (proposedResult.travelTimes.flatMap (fun t => t.route.map (fun rr => rr.name)))) []).filter
    (fun name => name != "Walking")

structure Improvements where
  averageTimeSaved : ℚ
  percentImprovement : ℚ
  affectedRoutes : List String
deriving DecidableEq

structure ComparisonResult where
  current : SimulationResult
  proposed : SimulationResult
  improvements : Improvements
deriving DecidableEq

/-- `SimulationEngine.compareScenarios`: the current engine's
routes/stops for the `current` run, a second engine with the proposed
routes/stops (and this engine's config) for the `proposed` run.  The two
`elapsedMs` parameters are the wall-clock readings of the two `simulate`
calls. -/
def compareScenarios (dist : Point → Point → ℚ) (cfg : SimulationConfig)
    (routes : List RouteSegment) (stops : List TransitStop)
    (pairs : List ODPair) (proposedRoutes : List RouteSegment)
    (proposedStops : List TransitStop) (timeOfDay : ℚ)
    (elapsedCurrentMs elapsedProposedMs : ℚ) : ComparisonResult :=
  let currentResult := simulate dist cfg routes stops pairs timeOfDay elapsedCurrentMs
  let proposedResult :=
    { simulate dist cfg proposedRoutes proposedStops pairs timeOfDay elapsedProposedMs with
        scenario := Scenario.proposed }
  let currentAverage := calculateAverageTravelTime currentResult.travelTimes
  let proposedAverage := calculateAverageTravelTime proposedResult.travelTimes
  let averageTimeSaved := currentAverage - proposedAverage
  { current := currentResult
    proposed := proposedResult
    improvements :=
      { averageTimeSaved := averageTimeSaved
        percentImprovement := averageTimeSaved / currentAverage * 100
        affectedRoutes := extractAffectedRoutes currentResult proposedResult } }

-- ### Engine pedestrian population state

structure EngineState where
  routes : List RouteSegment
  stops : List TransitStop
  pedestrians : List PedestrianAgent
  config : SimulationConfig
  pedestrianConfig : PedestrianSimConfig
  isRunning : Bool
  currentTime : ℚ
  agentCounter : ℕ
deriving DecidableEq

/-- The accessibility requirement `addPedestrianAgents` passes to
`findPath` for each agent type. -/
def accessibilityRequiredFor : AgentType → Option AccessReq
  | AgentType.wheelchair => some AccessReq.full
  | AgentType.mobility_aid => some AccessReq.limited
  | _ => Option.none

/-- The per-stop loop of `addPedestrianAgents`: `i` is the loop index,
`k` the random-stream index, `counter` the factory's agent counter. -/
def addAgentsLoop (dist : Point → Point → ℚ) (fns : RealFns) (r : ℕ → ℚ) (now : ℚ)
    (cfg : PedestrianSimConfig) (rushHour : Bool)
    (agentsPerStop remainingAgents : ℤ) :
    List TransitStop → ℕ → ℕ → ℕ → List PedestrianAgent × ℕ × ℕ
  | [], _, k, counter => ([], k, counter)
  | stop :: rest, i, k, counter =>
    let stopsCount : ℤ := agentsPerStop + (if (i : ℤ) < remainingAgents then 1 else 0)
    if 0 < stopsCount then
      let trips := generateStopCentricTrips fns r stop 1000 stopsCount.toNat k
      let batch := createAgentBatch cfg r now rushHour trips.1 trips.2 counter
      let agents := batch.1.map (fun agent =>
        { agent with route := some (findPath dist cfg.sidewalkNetwork agent.origin
            agent.destination (accessibilityRequiredFor agent.agentType)) })
      let more := addAgentsLoop dist fns r now cfg rushHour agentsPerStop remainingAgents
        rest (i + 1) batch.2.1 batch.2.2
      (agents ++ more.1, more.2.1, more.2.2)
    else
      addAgentsLoop dist fns r now cfg rushHour agentsPerStop remainingAgents
        rest (i + 1) k counter

/-- `SimulationEngine.addPedestrianAgents(count, rushHour)`: clamp the
count to the remaining capacity, distribute
`Math.max(1, Math.floor(count / stops.length))` agents per stop plus the
remainder over the first stops, generate stop-centric trips, create the
batch, compute each agent's path, and append to the population.  Returns
the new agents, the updated engine state, and the next stream index. -/
def addPedestrianAgents (dist : Point → Point → ℚ) (fns : RealFns) (r : ℕ → ℚ)
    (now : ℚ) (st : EngineState) (count : ℤ) (rushHour : Bool) (k : ℕ) :
    List PedestrianAgent × EngineState × ℕ :=
  let count1 : ℤ :=
    if (st.pedestrians.length : ℤ) + count > st.pedestrianConfig.maxAgents then
      st.pedestrianConfig.maxAgents - (st.pedestrians.length : ℤ)
    else count
  if st.stops.length = 0 then ([], st, k)
  else
    let agentsPerStop : ℤ := max 1 (Int.fdiv count1 (st.stops.length : ℤ))
    let remainingAgents : ℤ := count1 - agentsPerStop * (st.stops.length : ℤ)
    let res := addAgentsLoop dist fns r now st.pedestrianConfig rushHour agentsPerStop
      remainingAgents st.stops 0 k st.agentCounter
    (res.1,
      { st with pedestrians := st.pedestrians ++ res.1, agentCounter := res.2.2 },
      res.2.1)

/-- The body of the per-agent update in
`SimulationEngine.updatePedestrianSimulation`.  `pop` is the full
population array that the flocking pass reads (the goal-force call
mutates only `pathIndex`/`isAtDestination`, which flocking never
reads, so passing the pre-goal array is observationally identical to
the source's in-place mutation). -/
def updateOneAgent (dist : Point → Point → ℚ) (fns : RealFns) (now : ℚ)
    (cfg : PedestrianSimConfig) (deltaTime : ℚ)
    (pop : List PedestrianAgent) (agent : PedestrianAgent) : PedestrianAgent :=
  if agent.isAtDestination then agent
  else
    let goal := calculateGoalForce fns agent
    let goalForce := goal.1
    let agent1 := goal.2
    let flockingForces := calculateFlockingForces dist fns cfg.crowdDynamics agent1 pop
    let obstacleForce := getObstacleAvoidanceForce dist fns cfg.sidewalkNetwork
      agent1.currentPosition agent1.velocity 5
    let totalForce : Vec2 :=
      { x := goalForce.x * 3 + flockingForces.x + obstacleForce.x
        y := goalForce.y * 3 + flockingForces.y + obstacleForce.y }
    let v1 : Vec2 :=
      { x := agent1.velocity.x + totalForce.x * deltaTime
        y := agent1.velocity.y + totalForce.y * deltaTime }
    let speed := fns.sqrt (v1.x * v1.x + v1.y * v1.y)
    let v2 :=
      if speed > agent1.maxSpeed / 60 then
        ({ x := v1.x * (agent1.maxSpeed / 60 / speed)
           y := v1.y * (agent1.maxSpeed / 60 / speed) } : Vec2)
      else v1
    updateAgent fns { agent1 with velocity := v2 } deltaTime now

/-- The `for (const agent of this.pedestrians)` sweep: each agent is
updated in place, so later agents see earlier agents' updates. -/
def sweepAgents (upd : List PedestrianAgent → PedestrianAgent → PedestrianAgent) :
    ℕ → List PedestrianAgent → ℕ → List PedestrianAgent
  | 0, pop, _ => pop
  | fuel + 1, pop, i =>
    match pop.get? i with
    | Option.none => pop
    | some a => sweepAgents upd fuel (pop.set i (upd pop a)) (i + 1)

/-- `SimulationEngine.updatePedestrianSimulation(deltaTime)`: a no-op
when not running or the population is empty; otherwise updates every
non-terminal agent and prunes agents that reached their destination.
There is no validation of `deltaTime`. -/
def updatePedestrianSimulation (dist : Point → Point → ℚ) (fns : RealFns) (now : ℚ)
    (st : EngineState) (deltaTime : ℚ) : EngineState :=
  if st.isRunning = false ∨ st.pedestrians.length = 0 then st
  else
    let updated := sweepAgents (updateOneAgent dist fns now st.pedestrianConfig deltaTime)
      st.pedestrians.length st.pedestrians 0
    { st with pedestrians := updated.filter (fun agent => !agent.isAtDestination) }

/-- `SimulationEngine.setWeatherConditions`: replace the weather and
rescale every live agent's `walkingSpeed` from its stored `maxSpeed` and
`weatherSensitivity`. -/
def setWeatherConditions (st : EngineState) (weather : WeatherConditions) : EngineState :=
  { st with
      pedestrianConfig := { st.pedestrianConfig with weather := weather }
      pedestrians := st.pedestrians.map (fun agent =>
        { agent with walkingSpeed :=
            agent.maxSpeed * calculateWeatherFactor weather agent.weatherSensitivity }) }

-- ### Generic list helpers

theorem foldl_preserves_mem {α β : Type} {P : α → Prop} (f : α → β → α) :
    ∀ (l : List β), (∀ s x, x ∈ l → P s → P (f s x)) → ∀ s, P s → P (l.foldl f s) := by
  intro l
  induction l with
  | nil => intro _ s hs; simpa using hs
  | cons x xs ih =>
    intro h s hs
    simp only [List.foldl_cons]
    exact ih (fun s' y hy hs' => h s' y (List.mem_cons_of_mem _ hy) hs') _
      (h s x (List.mem_cons_self _ _) hs)

theorem setLast_ne_nil {l : List Point} (h : l ≠ []) (p : Point) : setLast p l ≠ [] := by
  cases l with
  | nil => exact absurd rfl h
  | cons x xs => cases xs <;> simp [setLast]

theorem setLast_getLast? (p : Point) :
    ∀ (l : List Point), l ≠ [] → (setLast p l).getLast? = some p := by
  intro l
  induction l with
  | nil => intro h; exact absurd rfl h
  | cons x xs ih =>
    intro _
    cases xs with
    | nil => simp [setLast]
    | cons y ys =>
      have hy : setLast p (y :: ys) ≠ [] := setLast_ne_nil (by simp) p
      have hstep : setLast p (x :: y :: ys) = x :: setLast p (y :: ys) := by simp [setLast]
      rw [hstep]
      rcases hlp : setLast p (y :: ys) with _ | ⟨a, as⟩
      · exact absurd hlp hy
      · rw [List.getLast?_cons_cons]
        rw [← hlp]
        exact ih (by simp)

theorem mem_setHead {l : List Point} {p q : Point} (h : q ∈ setHead l p) : q = p ∨ q ∈ l := by
  cases l with
  | nil => simp [setHead] at h
  | cons x xs =>
    simp only [setHead, List.mem_cons] at h
    rcases h with h | h
    · exact Or.inl h
    · exact Or.inr (List.mem_cons_of_mem _ h)

theorem mem_setLast {p q : Point} : ∀ {l : List Point}, q ∈ setLast p l → q = p ∨ q ∈ l := by
  intro l
  induction l with
  | nil => intro h; simp [setLast] at h
  | cons x xs ih =>
    intro h
    cases xs with
    | nil =>
      simp only [setLast, List.mem_singleton] at h
      exact Or.inl h
    | cons y ys =>
      simp only [setLast, List.mem_cons] at h
      rcases h with h | h
      · exact Or.inr (by simp [h])
      · rcases ih h with h' | h'
        · exact Or.inl h'
        · exact Or.inr (List.mem_cons_of_mem _ h')

theorem finalizePath_ne_nil {l : List Point} (h : l ≠ []) (s g : Point) :
    finalizePath l s g ≠ [] := by
  unfold finalizePath
  apply setLast_ne_nil
  cases l with
  | nil => exact absurd rfl h
  | cons x xs => simp [setHead]

theorem finalizePath_getLast? {l : List Point} (h : l ≠ []) (s g : Point) :
    (finalizePath l s g).getLast? = some g := by
  unfold finalizePath
  apply setLast_getLast?
  cases l with
  | nil => exact absurd rfl h
  | cons x xs => simp [setHead]

theorem finalizePath_head? {l : List Point} (h : l ≠ []) (s g : Point) :
    (finalizePath l s g).head? = some s ∨ finalizePath l s g = [g] := by
  cases l with
  | nil => exact absurd rfl h
  | cons x xs =>
    cases xs with
    | nil => right; simp [finalizePath, setHead, setLast]
    | cons y ys => left; simp [finalizePath, setHead, setLast]

theorem mem_finalizePath {l : List Point} {s g q : Point} (h : q ∈ finalizePath l s g) :
    q = s ∨ q = g ∨ q ∈ l := by
  unfold finalizePath at h
  rcases mem_setLast h with h' | h'
  · exact Or.inr (Or.inl h')
  · rcases mem_setHead h' with h'' | h''
    · exact Or.inl h''
    · exact Or.inr (Or.inr h'')

-- ### Shape of the A* loop result

theorem astarLoop_shape (dist : Point → Point → ℚ) (net : SidewalkNetwork)
    (req : Option AccessReq) (goalNode : SidewalkNode) (start goal : Point) :
    ∀ (fuel : ℕ) (st : AState),
      astarLoop dist net req goalNode start goal fuel st = [start, goal] ∨
      ∃ l : List Point, l ≠ [] ∧
        astarLoop dist net req goalNode start goal fuel st = finalizePath l start goal := by
  intro fuel
  induction fuel with
  | zero => intro st; left; rfl
  | succ n ih =>
    intro st
    simp only [astarLoop]
    split
    · left; rfl
    · split
      · left; rfl
      · split
        · right
          refine ⟨(reconstructFrom st.nodeMap (st.nodeMap.length + 1) _).reverse, ?_, rfl⟩
          simp [reconstructFrom]
        · exact ih _

/-- Claim C2 (amended): `findPath` always returns a non-empty list whose
last element is exactly `goal`, and whose first element is exactly
`start` except when the A* search starts and ends on the same snapped
network node, in which case the whole result is the single point
`[goal]` (the `path[path.length - 1] = goal` assignment overwrites the
`path[0] = start` assignment on a length-one path). -/
theorem findPath_endpoints (dist : Point → Point → ℚ) (net : SidewalkNetwork)
    (start goal : Point) (req : Option AccessReq) :
    findPath dist net start goal req ≠ [] ∧
    (findPath dist net start goal req).getLast? = some goal ∧
    ((findPath dist net start goal req).head? = some start ∨
      findPath dist net start goal req = [goal]) := by
  simp only [findPath]
  split
  · next startNode goalNode hsn hgn =>
    rcases astarLoop_shape dist net req goalNode start goal _ _ with h | ⟨l, hl, h⟩ <;> rw [h]
    · exact ⟨by simp, by simp, Or.inl (by simp)⟩
    · exact ⟨finalizePath_ne_nil hl start goal, finalizePath_getLast? hl start goal,
        finalizePath_head? hl start goal⟩
  · exact ⟨by simp, by simp, Or.inl (by simp)⟩

/-- A one-node sidewalk network: any start and goal both snap to `n1`. -/
def oneNodeNet : SidewalkNetwork :=
  { nodes := [{ id := "n1"
                position := { lat := 0, lng := 0 }
                connections := []
                width := 3
                accessibility := Accessibility.full
                crowdCapacity := 10 }]
    obstacles := [] }

/-- Claim C2 counterexample: when start and goal snap to the same network
node, `findPath` returns the single point `[goal]`, whose first element
is `goal`, not `start` — refuting the claim that the first element of
the result always equals `start` exactly. -/
theorem findPath_first_element_counterexample :
    findPath (fun _ _ => 0) oneNodeNet { lat := 1, lng := 1 } { lat := 2, lng := 2 }
        Option.none = [{ lat := 2, lng := 2 }] ∧
    (findPath (fun _ _ => 0) oneNodeNet { lat := 1, lng := 1 } { lat := 2, lng := 2 }
        Option.none).head? ≠ some { lat := 1, lng := 1 } := by
  constructor
  · rfl
  · decide

-- ### Accessibility filtering (C4)

theorem mapFind_mem {nm : List (String × PathNode)} {id : String} {pn : PathNode}
    (h : mapFind nm id = some pn) : ∃ e ∈ nm, e.2 = pn := by
  unfold mapFind at h
  rcases hf : nm.find? (fun e => e.1 == id) with _ | e
  · rw [hf] at h; simp at h
  · rw [hf] at h
    exact ⟨e, List.mem_of_find?_eq_some hf, by simpa using h⟩

theorem mem_mapInsert {nm : List (String × PathNode)} {id : String} {pn : PathNode}
    {e : String × PathNode} (h : e ∈ mapInsert nm id pn) : e ∈ nm ∨ e.2 = pn := by
  unfold mapInsert at h
  split at h
  · rcases List.mem_map.mp h with ⟨e', he', heq⟩
    by_cases hid : e'.1 == id
    · rw [if_pos hid] at heq
      right; rw [← heq]
    · rw [if_neg hid] at heq
      left; rw [← heq]; exact he'
  · rcases List.mem_append.mp h with h' | h'
    · exact Or.inl h'
    · right
      have : e = (id, pn) := by simpa using h'
      rw [this]

/-- Every `nodeMap` entry produced by a neighbor expansion either keeps a
position already present in the map or carries the position of a
non-excluded network node. -/
theorem expandNeighbor_pos (dist : Point → Point → ℚ) (net : SidewalkNetwork)
    (req : Option AccessReq) (goalNode : SidewalkNode) (current : PathNode)
    (st : AState) (neighborId : String) :
    ∀ e ∈ (expandNeighbor dist net req goalNode current st neighborId).nodeMap,
      (∃ e' ∈ st.nodeMap, e.2.position = e'.2.position) ∨
      ∃ n ∈ net.nodes, ¬ nodeExcluded req n ∧ e.2.position = n.position := by
  intro e he
  unfold expandNeighbor at he
  split at he
  · exact Or.inl ⟨e, he, rfl⟩
  · split at he
    · exact Or.inl ⟨e, he, rfl⟩
    · next nnode hfind =>
      split at he
      · exact Or.inl ⟨e, he, rfl⟩
      · next hexcl =>
        have hnn : nnode ∈ net.nodes := List.mem_of_find?_eq_some hfind
        simp only at he
        split at he
        · -- relaxation branch: e ∈ mapInsert nm1 neighborId pn'
          rcases mem_mapInsert he with h1 | h1
          · -- e ∈ nm1
            by_cases hex : (mapFind st.nodeMap neighborId).isSome
            · rw [if_pos hex] at h1
              exact Or.inl ⟨e, h1, rfl⟩
            · rw [if_neg hex] at h1
              rcases mem_mapInsert h1 with h2 | h2
              · exact Or.inl ⟨e, h2, rfl⟩
              · exact Or.inr ⟨nnode, hnn, hexcl, by rw [h2]⟩
          · -- e.2 = pn', whose position is that of `pn`
            rcases hex : mapFind st.nodeMap neighborId with _ | pnE
            · rw [hex] at h1
              exact Or.inr ⟨nnode, hnn, hexcl, by simp [h1]⟩
            · rw [hex] at h1
              rcases mapFind_mem hex with ⟨e', he', hpe⟩
              refine Or.inl ⟨e', he', ?_⟩
              simp [h1, ← hpe]
        · -- no relaxation: e ∈ nm1
          by_cases hex : (mapFind st.nodeMap neighborId).isSome
          · rw [if_pos hex] at he
            exact Or.inl ⟨e, he, rfl⟩
          · rw [if_neg hex] at he
            rcases mem_mapInsert he with h2 | h2
            · exact Or.inl ⟨e, h2, rfl⟩
            · exact Or.inr ⟨nnode, hnn, hexcl, by rw [h2]⟩

theorem mem_reconstructPath {nm : List (String × PathNode)} :
    ∀ (fuel : ℕ) (id : String) (p : Point), p ∈ reconstructPath nm fuel id →
      ∃ e ∈ nm, e.2.position = p := by
  intro fuel
  induction fuel with
  | zero => intro id p h; simp [reconstructPath] at h
  | succ n ih =>
    intro id p h
    unfold reconstructPath at h
    rcases hf : mapFind nm id with _ | pn
    · simp only [hf] at h; simp at h
    · simp only [hf] at h
      rcases hp : pn.parent with _ | par
      · simp only [hp, List.mem_singleton] at h
        rcases mapFind_mem hf with ⟨e, he, hpe⟩
        exact ⟨e, he, by rw [hpe, h]⟩
      · simp only [hp, List.mem_cons] at h
        rcases h with h' | h'
        · rcases mapFind_mem hf with ⟨e, he, hpe⟩
          exact ⟨e, he, by rw [hpe, h']⟩
        · exact ih par p h'

theorem mem_reconstructFrom {nm : List (String × PathNode)} {fuel : ℕ} {pn : PathNode}
    {p : Point} (h : p ∈ reconstructFrom nm fuel pn) :
    p = pn.position ∨ ∃ e ∈ nm, e.2.position = p := by
  unfold reconstructFrom at h
  rcases List.mem_cons.mp h with h' | h'
  · exact Or.inl h'
  · rcases hp : pn.parent with _ | par
    · rw [hp] at h'; simp at h'
    · rw [hp] at h'
      exact Or.inr (mem_reconstructPath fuel par p h')

/-- Invariant carried through the A* search: every `nodeMap` entry's
position is the position of some non-excluded network node. -/
def nmOK (net : SidewalkNetwork) (req : Option AccessReq)
    (nm : List (String × PathNode)) : Prop :=
  ∀ e ∈ nm, ∃ n ∈ net.nodes, ¬ nodeExcluded req n ∧ n.position = e.2.position

theorem expandNeighbor_nmOK (dist : Point → Point → ℚ) (net : SidewalkNetwork)
    (req : Option AccessReq) (goalNode : SidewalkNode) (current : PathNode)
    (st : AState) (neighborId : String) (h : nmOK net req st.nodeMap) :
    nmOK net req (expandNeighbor dist net req goalNode current st neighborId).nodeMap := by
  intro e he
  rcases expandNeighbor_pos dist net req goalNode current st neighborId e he with
    ⟨e', he', hpe⟩ | ⟨n, hn, hnx, hp⟩
  · rcases h e' he' with ⟨n, hn, hnx, hp⟩
    exact ⟨n, hn, hnx, by rw [hp, ← hpe]⟩
  · exact ⟨n, hn, hnx, hp.symm⟩

theorem expandAll_nmOK (dist : Point → Point → ℚ) (net : SidewalkNetwork)
    (req : Option AccessReq) (goalNode : SidewalkNode) (current : PathNode)
    (st : AState) (h : nmOK net req st.nodeMap) :
    nmOK net req (expandAll dist net req goalNode current st).nodeMap := by
  unfold expandAll
  split
  · exact h
  · next networkNode _ =>
    exact foldl_preserves_mem (P := fun s => nmOK net req s.nodeMap)
      (expandNeighbor dist net req goalNode current) networkNode.connections
      (fun s x _ hs => expandNeighbor_nmOK dist net req goalNode current s x hs) st h

theorem astarLoop_mem (dist : Point → Point → ℚ) (net : SidewalkNetwork)
    (req : Option AccessReq) (goalNode : SidewalkNode) (start goal : Point) :
    ∀ (fuel : ℕ) (st : AState), nmOK net req st.nodeMap →
      ∀ p ∈ astarLoop dist net req goalNode start goal fuel st,
        p = start ∨ p = goal ∨ ∃ n ∈ net.nodes, ¬ nodeExcluded req n ∧ n.position = p := by
  intro fuel
  induction fuel with
  | zero =>
    intro st _ p hp
    rcases List.mem_cons.mp hp with h | h
    · exact Or.inl h
    · exact Or.inr (Or.inl (by simpa using h))
  | succ n ih =>
    intro st hok p hp
    rw [astarLoop] at hp
    split at hp
    · rcases List.mem_cons.mp hp with h | h
      · exact Or.inl h
      · exact Or.inr (Or.inl (by simpa using h))
    · split at hp
      · rcases List.mem_cons.mp hp with h | h
        · exact Or.inl h
        · exact Or.inr (Or.inl (by simpa using h))
      · next current hcur =>
        split at hp
        · rcases mem_finalizePath hp with h | h | h
          · exact Or.inl h
          · exact Or.inr (Or.inl h)
          · rw [List.mem_reverse] at h
            rcases mem_reconstructFrom h with h' | ⟨e, he, hpe⟩
            · rcases mapFind_mem hcur with ⟨e, he, hpe⟩
              rcases hok e he with ⟨nn, hn, hnx, hpp⟩
              exact Or.inr (Or.inr ⟨nn, hn, hnx, by rw [hpp, hpe, ← h']⟩)
            · rcases hok e he with ⟨nn, hn, hnx, hpp⟩
              exact Or.inr (Or.inr ⟨nn, hn, hnx, by rw [hpp, hpe]⟩)
        · refine ih _ ?_ p hp
          exact expandAll_nmOK dist net req goalNode current _ hok

theorem findClosestNode_spec (dist : Point → Point → ℚ) (net : SidewalkNetwork)
    (point : Point) (req : Option AccessReq) (n : SidewalkNode)
    (h : findClosestNode dist net point req = some n) :
    n ∈ net.nodes ∧ ¬ nodeExcluded req n := by
  unfold findClosestNode at h
  have key := foldl_preserves_mem
    (P := fun acc : Option (SidewalkNode × ℚ) =>
      ∀ pr, acc = some pr → pr.1 ∈ net.nodes ∧ ¬ nodeExcluded req pr.1)
    (closestStep dist point req) net.nodes
    (by
      intro s x hx hs pr hpr
      unfold closestStep at hpr
      split at hpr
      · exact hs pr hpr
      · next hnx =>
        rcases s with _ | ⟨b, m⟩
        · change some (x, dist point x.position) = some pr at hpr
          cases hpr
          exact ⟨hx, hnx⟩
        · change (if dist point x.position < m then some (x, dist point x.position)
            else some (b, m)) = some pr at hpr
          split at hpr
          · cases hpr
            exact ⟨hx, hnx⟩
          · cases hpr
            exact hs (b, m) rfl)
    Option.none (by intro pr hpr; cases hpr)
  rcases ho : net.nodes.foldl (closestStep dist point req) Option.none with _ | pr
  · rw [ho] at h; simp at h
  · rw [ho] at h
    have hn : pr.1 = n := by simpa using h
    rw [← hn]
    exact key pr ho

/-- Claim C4: when `accessibilityRequired = 'full'`, every point of the
path returned by `findPath` is the exact start point, the exact goal
point, or the position of a network node whose accessibility is not
`'none'` (both the snapped endpoints and every expanded neighbor pass
the accessibility filter). -/
theorem findPath_accessibility_full (dist : Point → Point → ℚ) (net : SidewalkNetwork)
    (start goal : Point) :
    ∀ p ∈ findPath dist net start goal (some AccessReq.full),
      p = start ∨ p = goal ∨
        ∃ n ∈ net.nodes, n.accessibility ≠ Accessibility.none ∧ n.position = p := by
  intro p hp
  rw [findPath] at hp
  split at hp
  · next startNode goalNode hsn hgn =>
    have hstart := findClosestNode_spec dist net start (some AccessReq.full) startNode hsn
    have hok : nmOK net (some AccessReq.full)
        [(startNode.id,
          { id := startNode.id
            position := startNode.position
            gCost := ((0 : ℚ) : WithTop ℚ)
            hCost := dist startNode.position goalNode.position
            fCost := ((0 : ℚ) : WithTop ℚ) +
              ((dist startNode.position goalNode.position : ℚ) : WithTop ℚ)
            parent := Option.none })] := by
      intro e he
      have he' := List.mem_singleton.mp he
      exact ⟨startNode, hstart.1, hstart.2, by rw [he']⟩
    rcases astarLoop_mem dist net (some AccessReq.full) goalNode start goal _ _ hok p hp with
      h | h | ⟨nn, hn, hnx, hpp⟩
    · exact Or.inl h
    · exact Or.inr (Or.inl h)
    · refine Or.inr (Or.inr ⟨nn, hn, fun hacc => hnx ⟨rfl, hacc⟩, hpp⟩)
  · rcases List.mem_cons.mp hp with h | h
    · exact Or.inl h
    · exact Or.inr (Or.inl (by simpa using h))

/-- Claim C4 witness: a concrete instantiation of the accessibility
theorem on the one-node network, at the goal point of the returned path. -/
theorem findPath_accessibility_full_witness :
    (({ lat := 2, lng := 2 } : Point) ∈
      findPath (fun _ _ => 0) oneNodeNet { lat := 1, lng := 1 } { lat := 2, lng := 2 }
        (some AccessReq.full)) ∧
    (({ lat := 2, lng := 2 } : Point) = { lat := 1, lng := 1 } ∨
      ({ lat := 2, lng := 2 } : Point) = { lat := 2, lng := 2 } ∨
      ∃ n ∈ oneNodeNet.nodes, n.accessibility ≠ Accessibility.none ∧
        n.position = { lat := 2, lng := 2 }) :=
  ⟨by decide,
    findPath_accessibility_full (fun _ _ => 0) oneNodeNet { lat := 1, lng := 1 }
      { lat := 2, lng := 2 } { lat := 2, lng := 2 } (by decide)⟩

-- ### Crowd metrics on the empty population (C7)

/-- Trivial instantiations of the abstract real functions, used by the
concrete counterexamples. -/
def cFnsTrivial : RealFns :=
  { sqrt := fun q => q, cos := fun _ => 1, sin := fun _ => 0, pi := 3 }

/-- Claim C7 (amended): crowd metrics on the empty agent list give
density 0, averageSpeed 0, flowRate 0 — but congestionLevel 1, because
the congestion formula max(density/5, 1 − averageSpeed/80) clamped to
[0,1] evaluates to max 0 1 = 1 at zero density and zero average speed. -/
theorem calculateCrowdMetrics_empty (dist : Point → Point → ℚ) (fns : RealFns)
    (center : Point) (radius : ℚ) :
    calculateCrowdMetrics dist fns [] center radius =
      { density := 0, averageSpeed := 0, flowRate := 0, congestionLevel := 1 } := by
  unfold calculateCrowdMetrics
  norm_num

/-- Claim C7 counterexample: on the empty agent list the congestion
level is 1, not 0 as the claim states. -/
theorem calculateCrowdMetrics_empty_congestion_counterexample :
    (calculateCrowdMetrics (fun _ _ => 0) cFnsTrivial [] { lat := 0, lng := 0 } 1).congestionLevel ≠ 0 := by
  norm_num [calculateCrowdMetrics]

-- ### Scenario comparison determinism (C8)

/-- Claim C8 (amended): given the same pairs, routes, stops and time of
day, the `current` result of `compareScenarios` is identical across
repeated calls in every field except `totalSimulationTime`, which is a
wall-clock elapsed-time measurement (`Date.now() - startTime`), not a
function of the inputs. -/
theorem compareScenarios_deterministic_up_to_clock (dist : Point → Point → ℚ)
    (cfg : SimulationConfig) (routes : List RouteSegment) (stops : List TransitStop)
    (pairs : List ODPair) (proposedRoutes : List RouteSegment)
    (proposedStops : List TransitStop) (timeOfDay : ℚ) (e1 e1' e2 e2' : ℚ) :
    (compareScenarios dist cfg routes stops pairs proposedRoutes proposedStops
        timeOfDay e1 e1').current.travelTimes =
      (compareScenarios dist cfg routes stops pairs proposedRoutes proposedStops
        timeOfDay e2 e2').current.travelTimes ∧
    (compareScenarios dist cfg routes stops pairs proposedRoutes proposedStops
        timeOfDay e1 e1').current.averageWaitTime =
      (compareScenarios dist cfg routes stops pairs proposedRoutes proposedStops
        timeOfDay e2 e2').current.averageWaitTime ∧
    (compareScenarios dist cfg routes stops pairs proposedRoutes proposedStops
        timeOfDay e1 e1').current.confidence =
      (compareScenarios dist cfg routes stops pairs proposedRoutes proposedStops
        timeOfDay e2 e2').current.confidence ∧
    (compareScenarios dist cfg routes stops pairs proposedRoutes proposedStops
        timeOfDay e1 e1').current.scenario =
      (compareScenarios dist cfg routes stops pairs proposedRoutes proposedStops
        timeOfDay e2 e2').current.scenario :=
  ⟨rfl, rfl, rfl, rfl⟩

/-- Claim C8 counterexample: two invocations on identical pairs, routes
and stops, differing only in the wall-clock reading, give different
`current` results — `totalSimulationTime` is a result field yet is not
determined by the inputs. -/
theorem compareScenarios_clock_counterexample :
    (compareScenarios (fun _ _ => 0) defaultSimulationConfig [] [] [] [] [] 480 0 0).current ≠
      (compareScenarios (fun _ _ => 0) defaultSimulationConfig [] [] [] [] [] 480 1000 0).current := by
  simp only [compareScenarios, simulate]
  intro h
  have := congrArg SimulationResult.totalSimulationTime h
  norm_num at this

-- ### Agent termination (C6)

theorem goalForce_atDest (fns : RealFns) (agent : PedestrianAgent)
    (h : agent.isAtDestination = true) :
    calculateGoalForce fns agent = ({ x := 0, y := 0 }, agent) := by
  unfold calculateGoalForce
  split
  · rfl
  · rw [if_pos (Or.inr h)]

theorem goalForceIter_atDest (fns : RealFns) (agent : PedestrianAgent)
    (h : agent.isAtDestination = true) :
    ∀ n : ℕ, goalForceIter fns n agent = agent := by
  intro n
  induction n with
  | zero => rfl
  | succ m ih =>
    show goalForceIter fns m (calculateGoalForce fns agent).2 = agent
    rw [goalForce_atDest fns agent h]
    exact ih

theorem goalForce_pathIndex_mono (fns : RealFns) (agent : PedestrianAgent) :
    agent.pathIndex ≤ (calculateGoalForce fns agent).2.pathIndex ∧
    (calculateGoalForce fns agent).2.pathIndex ≤ agent.pathIndex + 1 ∧
    (∀ route, agent.route = some route →
      (calculateGoalForce fns agent).2.pathIndex ≤ max agent.pathIndex (route.length - 1)) := by
  unfold calculateGoalForce
  split
  · exact ⟨le_refl _, Nat.le_succ _, fun route _ => le_max_left _ _⟩
  · next route heq =>
    split
    · exact ⟨le_refl _, Nat.le_succ _, fun route' _ => le_max_left _ _⟩
    · split
      · exact ⟨le_refl _, Nat.le_succ _, fun route' _ => le_max_left _ _⟩
      · next w hw =>
        have hlt : agent.pathIndex < route.length := by
          by_contra hge
          push_neg at hge
          rw [List.get?_eq_none.mpr hge] at hw
          cases hw
        split
        · split
          · dsimp only
            refine ⟨by omega, by omega, fun route' h => ?_⟩
            rw [heq] at h
            injection h with h'
            subst h'
            omega
          · dsimp only
            refine ⟨by omega, by omega, fun route' h => ?_⟩
            rw [heq] at h
            injection h with h'
            subst h'
            omega
        · dsimp only
          refine ⟨le_refl _, Nat.le_succ _, fun route' h => le_max_left _ _⟩

theorem goalForceIter_mono (fns : RealFns) (agent : PedestrianAgent) :
    ∀ n : ℕ, agent.pathIndex ≤ (goalForceIter fns n agent).pathIndex := by
  intro n
  induction n generalizing agent with
  | zero => exact le_refl _
  | succ m ih =>
    exact le_trans (goalForce_pathIndex_mono fns agent).1 (ih (calculateGoalForce fns agent).2)

theorem goalForce_reaches_destination (fns : RealFns) (agent : PedestrianAgent)
    (route : List Point) (w : Point) (hr : agent.route = some route)
    (hd : agent.isAtDestination = false) (hw : route.get? agent.pathIndex = some w)
    (hlast : agent.pathIndex = route.length - 1)
    (hclose : fns.sqrt
      ((toLocalCoords fns w agent.currentPosition).x * (toLocalCoords fns w agent.currentPosition).x +
        (toLocalCoords fns w agent.currentPosition).y * (toLocalCoords fns w agent.currentPosition).y) < 2) :
    (calculateGoalForce fns agent).2.isAtDestination = true ∧
    (calculateGoalForce fns agent).1 = { x := 0, y := 0 } := by
  have hlt : agent.pathIndex < route.length := by
    by_contra hge
    push_neg at hge
    rw [List.get?_eq_none.mpr hge] at hw
    cases hw
  have hlen : route.length ≠ 0 := by omega
  unfold calculateGoalForce
  split
  · next hnone => rw [hr] at hnone; cases hnone
  · next route' heq =>
    rw [hr] at heq
    injection heq with heq'
    subst heq'
    rw [if_neg (by simp [hlen, hd])]
    split
    · next hwnone => rw [hw] at hwnone; cases hwnone
    · next w' hw' =>
      rw [hw] at hw'
      injection hw' with hw''
      subst hw''
      rw [if_pos hclose]
      rw [if_pos (by omega)]
      exact ⟨rfl, rfl⟩

/-- Claim C6: an agent's `pathIndex` never decreases across
`calculateGoalForce` calls — each call increases it by at most one and
keeps it clamped below the last route index; once the agent sits at the
last route index within the 2-meter waypoint threshold,
`isAtDestination` becomes true; and once `isAtDestination` is true it
stays true forever — `calculateGoalForce` returns zero force leaving the
agent unchanged, and `updateAgent` is a no-op. -/
theorem agent_termination (fns : RealFns) (agent : PedestrianAgent) (deltaTime now : ℚ) :
    (agent.pathIndex ≤ (calculateGoalForce fns agent).2.pathIndex ∧
      (calculateGoalForce fns agent).2.pathIndex ≤ agent.pathIndex + 1 ∧
      (∀ route, agent.route = some route →
        (calculateGoalForce fns agent).2.pathIndex ≤ max agent.pathIndex (route.length - 1))) ∧
    (∀ n : ℕ, agent.pathIndex ≤ (goalForceIter fns n agent).pathIndex) ∧
    (∀ route w, agent.route = some route → agent.isAtDestination = false →
      route.get? agent.pathIndex = some w → agent.pathIndex = route.length - 1 →
      fns.sqrt
        ((toLocalCoords fns w agent.currentPosition).x * (toLocalCoords fns w agent.currentPosition).x +
          (toLocalCoords fns w agent.currentPosition).y * (toLocalCoords fns w agent.currentPosition).y) < 2 →
      (calculateGoalForce fns agent).2.isAtDestination = true ∧
      (calculateGoalForce fns agent).1 = { x := 0, y := 0 }) ∧
    (agent.isAtDestination = true →
      calculateGoalForce fns agent = ({ x := 0, y := 0 }, agent) ∧
      (∀ n : ℕ, goalForceIter fns n agent = agent) ∧
      updateAgent fns agent deltaTime now = agent) :=
  ⟨goalForce_pathIndex_mono fns agent,
   goalForceIter_mono fns agent,
   fun route w hr hd hw hlast hclose =>
     goalForce_reaches_destination fns agent route w hr hd hw hlast hclose,
   fun h =>
     ⟨goalForce_atDest fns agent h, goalForceIter_atDest fns agent h,
      by unfold updateAgent; rw [if_pos h]⟩⟩

/-- A concrete agent one waypoint step from its destination. -/
def c6Agent : PedestrianAgent :=
  { id := "pedestrian_0"
    origin := { lat := 0, lng := 0 }
    destination := { lat := 0, lng := 0 }
    walkingSpeed := 80
    currentPosition := { lat := 0, lng := 0 }
    route := some [{ lat := 0, lng := 0 }]
    velocity := { x := 0, y := 0 }
    agentType := AgentType.normal
    maxSpeed := 80
    targetStop := Option.none
    pathIndex := 0
    weatherSensitivity := 1/2
    crowdAvoidanceRadius := 3/2
    isAtDestination := false
    lastUpdate := 0 }

/-- Claim C6 witness: the termination theorem applied to a concrete
agent at the last index of its route and within the 2-meter threshold;
`isAtDestination` becomes true and the force is zero. -/
theorem agent_termination_witness :
    (calculateGoalForce cFnsTrivial c6Agent).2.isAtDestination = true ∧
    (calculateGoalForce cFnsTrivial c6Agent).1 = { x := 0, y := 0 } :=
  (agent_termination cFnsTrivial c6Agent 1 0).2.2.1 [{ lat := 0, lng := 0 }] { lat := 0, lng := 0 }
    rfl rfl rfl rfl (by norm_num [toLocalCoords, cFnsTrivial, c6Agent])

-- ### Weather speed floor (C5)

theorem applyTemperature_unit (weather : WeatherConditions) {s m : ℚ}
    (hs0 : 0 ≤ s) (hs1 : s ≤ 1) (hm0 : 0 ≤ m) (hm1 : m ≤ 1) :
    0 ≤ applyTemperature weather s m ∧ applyTemperature weather s m ≤ 1 := by
  unfold applyTemperature
  split_ifs
  · exact ⟨mul_nonneg hm0 (by linarith), mul_le_one₀ hm1 (by linarith) (by linarith)⟩
  · exact ⟨mul_nonneg hm0 (by linarith), mul_le_one₀ hm1 (by linarith) (by linarith)⟩
  · exact ⟨hm0, hm1⟩

theorem applyPrecipitation_unit (weather : WeatherConditions) {s m : ℚ}
    (hs0 : 0 ≤ s) (hs1 : s ≤ 1) (hp0 : 0 ≤ weather.precipitation)
    (hp1 : weather.precipitation ≤ 1) (hm0 : 0 ≤ m) (hm1 : m ≤ 1) :
    0 ≤ applyPrecipitation weather s m ∧ applyPrecipitation weather s m ≤ 1 := by
  unfold applyPrecipitation
  have hsp0 : 0 ≤ s * weather.precipitation := mul_nonneg hs0 hp0
  have hsp1 : s * weather.precipitation ≤ 1 := mul_le_one₀ hs1 hp0 hp1
  split_ifs
  · exact ⟨mul_nonneg hm0 (by linarith), mul_le_one₀ hm1 (by linarith) (by linarith)⟩
  · exact ⟨hm0, hm1⟩

theorem applyWind_unit (weather : WeatherConditions) {s m : ℚ}
    (hs0 : 0 ≤ s) (hs1 : s ≤ 1) (hm0 : 0 ≤ m) (hm1 : m ≤ 1) :
    0 ≤ applyWind weather s m ∧ applyWind weather s m ≤ 1 := by
  unfold applyWind
  split_ifs
  · exact ⟨mul_nonneg hm0 (by linarith), mul_le_one₀ hm1 (by linarith) (by linarith)⟩
  · exact ⟨hm0, hm1⟩

theorem applyVisibility_unit (weather : WeatherConditions) {s m : ℚ}
    (hs0 : 0 ≤ s) (hs1 : s ≤ 1) (hv0 : 0 ≤ weather.visibility)
    (hv1 : weather.visibility ≤ 1) (hm0 : 0 ≤ m) (hm1 : m ≤ 1) :
    0 ≤ applyVisibility weather s m ∧ applyVisibility weather s m ≤ 1 := by
  unfold applyVisibility
  have h1v0 : 0 ≤ 1 - weather.visibility := by linarith
  have h1v1 : 1 - weather.visibility ≤ 1 := by linarith
  have hsv0 : 0 ≤ s * (1 - weather.visibility) := mul_nonneg hs0 h1v0
  have hsv1 : s * (1 - weather.visibility) ≤ 1 := mul_le_one₀ hs1 h1v0 h1v1
  split_ifs
  · exact ⟨mul_nonneg hm0 (by linarith), mul_le_one₀ hm1 (by linarith) (by linarith)⟩
  · exact ⟨hm0, hm1⟩

theorem weatherChain_unit (weather : WeatherConditions) {s : ℚ}
    (hs0 : 0 ≤ s) (hs1 : s ≤ 1) (hp0 : 0 ≤ weather.precipitation)
    (hp1 : weather.precipitation ≤ 1) (hv0 : 0 ≤ weather.visibility)
    (hv1 : weather.visibility ≤ 1) :
    applyVisibility weather s
      (applyWind weather s (applyPrecipitation weather s (applyTemperature weather s 1))) ≤ 1 := by
  have h1 := applyTemperature_unit weather (m := 1) hs0 hs1 (by norm_num) (by norm_num)
  have h2 := applyPrecipitation_unit weather hs0 hs1 hp0 hp1 h1.1 h1.2
  have h3 := applyWind_unit weather hs0 hs1 h2.1 h2.2
  exact (applyVisibility_unit weather hs0 hs1 hv0 hv1 h3.1 h3.2).2

/-- Claim C5: the weather speed modifier is at least 0.3 always, and at
most 1 for weather values in the documented ranges (precipitation and
visibility in [0,1]) and sensitivity in [0,1]; the engine's
`calculateWeatherFactor` duplicate satisfies the same bounds; hence an
agent's computed walking speed at creation is at least 30% of its
unmodified max speed (base speed times the agent-type factor), and after
`setWeatherConditions` every agent's walking speed is its stored
`maxSpeed` times the recomputed factor, hence at least 30% of that
`maxSpeed`. -/
theorem weather_speed_floor (weather : WeatherConditions) (s m : ℚ)
    (cfg : PedestrianSimConfig) (r : ℕ → ℚ) (now : ℚ) (o d : Point)
    (ts : Option TransitStop) (ty : AgentType) (k counter : ℕ) (st : EngineState)
    (weather2 : WeatherConditions) :
    (3/10 ≤ getWeatherSpeedModifier weather s) ∧
    (0 ≤ s → s ≤ 1 → 0 ≤ weather.precipitation → weather.precipitation ≤ 1 →
      0 ≤ weather.visibility → weather.visibility ≤ 1 →
      getWeatherSpeedModifier weather s ≤ 1) ∧
    (3/10 ≤ calculateWeatherFactor weather s) ∧
    (0 ≤ s → s ≤ 1 → 0 ≤ weather.precipitation → weather.precipitation ≤ 1 →
      0 ≤ weather.visibility → weather.visibility ≤ 1 →
      calculateWeatherFactor weather s ≤ 1) ∧
    (0 ≤ m → 3/10 * m ≤ m * getWeatherSpeedModifier weather s) ∧
    ((createAgent cfg r now o d ts (some ty) k counter).1.walkingSpeed =
      (80 + r k * 54) * getSpeedModifier cfg.accessibility ty *
        getWeatherSpeedModifier cfg.weather (getWeatherSensitivity (r (k + 1)) ty)) ∧
    (0 ≤ (80 + r k * 54) * getSpeedModifier cfg.accessibility ty →
      3/10 * ((80 + r k * 54) * getSpeedModifier cfg.accessibility ty) ≤
        (createAgent cfg r now o d ts (some ty) k counter).1.walkingSpeed) ∧
    (∀ a ∈ (setWeatherConditions st weather2).pedestrians,
      ∃ a0 ∈ st.pedestrians,
        a.walkingSpeed = a0.maxSpeed * calculateWeatherFactor weather2 a0.weatherSensitivity ∧
        (0 ≤ a0.maxSpeed → 3/10 * a0.maxSpeed ≤ a.walkingSpeed)) := by
  have hfloorG : ∀ w' s', 3/10 ≤ getWeatherSpeedModifier w' s' := fun _ _ => le_max_right _ _
  have hfloorC : ∀ w' s', 3/10 ≤ calculateWeatherFactor w' s' := fun _ _ => le_max_right _ _
  have hscale : ∀ (w' : WeatherConditions) (s' m' : ℚ), 0 ≤ m' →
      3/10 * m' ≤ m' * getWeatherSpeedModifier w' s' := by
    intro w' s' m' hm
    calc 3/10 * m' = m' * (3/10) := by ring
      _ ≤ m' * getWeatherSpeedModifier w' s' :=
          mul_le_mul_of_nonneg_left (hfloorG w' s') hm
  refine ⟨hfloorG weather s, ?_, hfloorC weather s, ?_, hscale weather s m, rfl, ?_, ?_⟩
  · intro hs0 hs1 hp0 hp1 hv0 hv1
    exact max_le (weatherChain_unit weather hs0 hs1 hp0 hp1 hv0 hv1) (by norm_num)
  · intro hs0 hs1 hp0 hp1 hv0 hv1
    exact max_le (weatherChain_unit weather hs0 hs1 hp0 hp1 hv0 hv1) (by norm_num)
  · intro hm
    exact hscale cfg.weather (getWeatherSensitivity (r (k + 1)) ty) _ hm
  · intro a ha
    rcases List.mem_map.mp ha with ⟨a0, ha0, haeq⟩
    refine ⟨a0, ha0, ?_, ?_⟩
    · rw [← haeq]
    · intro hm
      rw [← haeq]
      calc 3/10 * a0.maxSpeed = a0.maxSpeed * (3/10) := by ring
        _ ≤ a0.maxSpeed * calculateWeatherFactor weather2 a0.weatherSensitivity :=
            mul_le_mul_of_nonneg_left (hfloorC weather2 a0.weatherSensitivity) hm

/-- The clear-weather fixture used by the engine's default config. -/
def cWeatherClear : WeatherConditions :=
  { temperature := 20, precipitation := 0, windSpeed := 5, visibility := 1,
    type := WeatherType.clear }

/-- A small pedestrian-simulation config with an empty sidewalk network
and the source's default accessibility/crowd parameters. -/
def cPedConfig : PedestrianSimConfig :=
  { maxAgents := 1
    timeStep := 1
    crowdDynamics :=
      { separationRadius := 2, alignmentRadius := 5, cohesionRadius := 8, maxForce := 3,
        avoidanceForce := 5 }
    accessibility :=
      { wheelchairSpeedFactor := 6/10, mobilityAidSpeedFactor := 7/10,
        elderlySpeedFactor := 8/10, childSpeedFactor := 9/10 }
    weather := cWeatherClear
    sidewalkNetwork := { nodes := [], obstacles := [] } }

/-- An engine with no stops and no agents. -/
def cEngineEmpty : EngineState :=
  { routes := []
    stops := []
    pedestrians := []
    config := defaultSimulationConfig
    pedestrianConfig := cPedConfig
    isRunning := false
    currentTime := 0
    agentCounter := 0 }

/-- Claim C5 witness: the speed-floor theorem instantiated at
sensitivity 0 and clear weather, discharging the hypotheses concretely. -/
theorem weather_speed_floor_witness :
    ((0:ℚ) ≤ 1 ∧ 3/10 * (1:ℚ) ≤ 1 * getWeatherSpeedModifier cWeatherClear 0) ∧
    getWeatherSpeedModifier cWeatherClear 0 ≤ 1 :=
  ⟨⟨by norm_num,
    (weather_speed_floor cWeatherClear 0 1 cPedConfig (fun _ => 0) 0
      { lat := 0, lng := 0 } { lat := 0, lng := 0 } Option.none AgentType.normal 0 0
      cEngineEmpty cWeatherClear).2.2.2.2.1 (by norm_num)⟩,
    (weather_speed_floor cWeatherClear 0 1 cPedConfig (fun _ => 0) 0
      { lat := 0, lng := 0 } { lat := 0, lng := 0 } Option.none AgentType.normal 0 0
      cEngineEmpty cWeatherClear).2.1 (by norm_num) (by norm_num)
      (by norm_num [cWeatherClear]) (by norm_num [cWeatherClear])
      (by norm_num [cWeatherClear]) (by norm_num [cWeatherClear])⟩

-- ### Optimal route branches (C3)

/-- Claim C3: `findOptimalRoute` returns a walking result with
confidence 0.9 when the distance is under 2000 m; a walking result with
confidence 0.8 when either nearest bus stop is missing; a walking result
with confidence 0.7 when no shared route between the two stops can be
resolved; and otherwise mode 'mixed' exactly when walk-to-stop plus bus
time (waiting included) plus walk-from-stop is strictly less than the
direct walking time, with mode 'walking' and confidence 0.8 otherwise. -/
theorem findOptimalRoute_branches (dist : Point → Point → ℚ) (cfg : SimulationConfig)
    (routes : List RouteSegment) (stops : List TransitStop)
    (origin destination : Point) (t : ℚ) :
    (dist origin destination < 2000 →
      (findOptimalRoute dist cfg routes stops origin destination t).mode = TravelMode.walking ∧
      (findOptimalRoute dist cfg routes stops origin destination t).confidence = 9/10) ∧
    (¬ dist origin destination < 2000 →
      (findNearestStop dist stops origin (some StopType.bus) = Option.none ∨
        findNearestStop dist stops destination (some StopType.bus) = Option.none) →
      (findOptimalRoute dist cfg routes stops origin destination t).mode = TravelMode.walking ∧
      (findOptimalRoute dist cfg routes stops origin destination t).confidence = 8/10) ∧
    (¬ dist origin destination < 2000 →
      ∀ s1 s2, findNearestStop dist stops origin (some StopType.bus) = some s1 →
        findNearestStop dist stops destination (some StopType.bus) = some s2 →
        findDirectTransitRoute routes s1 s2 = Option.none →
        (findOptimalRoute dist cfg routes stops origin destination t).mode = TravelMode.walking ∧
        (findOptimalRoute dist cfg routes stops origin destination t).confidence = 7/10) ∧
    (¬ dist origin destination < 2000 →
      ∀ s1 s2 rt, findNearestStop dist stops origin (some StopType.bus) = some s1 →
        findNearestStop dist stops destination (some StopType.bus) = some s2 →
        findDirectTransitRoute routes s1 s2 = some rt →
        (((findOptimalRoute dist cfg routes stops origin destination t).mode = TravelMode.mixed ↔
          calculateWalkingTime dist cfg origin s1.location t +
            calculateBusTime dist cfg rt s1 s2 t +
            calculateWalkingTime dist cfg s2.location destination t <
            calculateWalkingTime dist cfg origin destination t) ∧
         (¬ (calculateWalkingTime dist cfg origin s1.location t +
              calculateBusTime dist cfg rt s1 s2 t +
              calculateWalkingTime dist cfg s2.location destination t <
              calculateWalkingTime dist cfg origin destination t) →
           (findOptimalRoute dist cfg routes stops origin destination t).mode = TravelMode.walking) ∧
         (findOptimalRoute dist cfg routes stops origin destination t).confidence = 8/10)) := by
  refine ⟨?_, ?_, ?_, ?_⟩
  · intro hlt
    unfold findOptimalRoute
    rw [if_pos hlt]
    exact ⟨rfl, rfl⟩
  · intro hge hnone
    unfold findOptimalRoute
    rw [if_neg hge]
    rcases h1 : findNearestStop dist stops origin (some StopType.bus) with _ | s1 <;>
      rcases h2 : findNearestStop dist stops destination (some StopType.bus) with _ | s2 <;>
      simp only [h1, h2] <;> first
      | exact ⟨rfl, rfl⟩
      | (rcases hnone with h | h
         · rw [h1] at h; cases h
         · rw [h2] at h; cases h)
  · intro hge s1 s2 h1 h2 hrt
    unfold findOptimalRoute
    rw [if_neg hge]
    simp only [h1, h2, hrt]
    exact ⟨rfl, rfl⟩
  · intro hge s1 s2 rt h1 h2 hrt
    unfold findOptimalRoute
    rw [if_neg hge]
    simp only [h1, h2, hrt, calculateTransitRoute]
    by_cases hcomp :
      calculateWalkingTime dist cfg origin s1.location t +
        calculateBusTime dist cfg rt s1 s2 t +
        calculateWalkingTime dist cfg s2.location destination t <
        calculateWalkingTime dist cfg origin destination t
    · rw [if_pos hcomp]
      exact ⟨⟨fun _ => hcomp, fun _ => rfl⟩, fun hn => absurd hcomp hn, rfl⟩
    · rw [if_neg hcomp]
      refine ⟨⟨fun hmix => ?_, fun hc => absurd hc hcomp⟩, fun _ => rfl, rfl⟩
      cases hmix

/-- Claim C3 witness: the branch theorem applied with the zero distance
function, which puts every origin/destination pair in the short-walk
branch. -/
theorem findOptimalRoute_branches_witness :
    ((fun (_ _ : Point) => (0 : ℚ)) { lat := 0, lng := 0 } { lat := 1, lng := 1 } < 2000) ∧
    (findOptimalRoute (fun _ _ => 0) defaultSimulationConfig [] [] { lat := 0, lng := 0 }
      { lat := 1, lng := 1 } 480).mode = TravelMode.walking ∧
    (findOptimalRoute (fun _ _ => 0) defaultSimulationConfig [] [] { lat := 0, lng := 0 }
      { lat := 1, lng := 1 } 480).confidence = 9/10 :=
  ⟨by norm_num,
   (findOptimalRoute_branches (fun _ _ => 0) defaultSimulationConfig [] [] { lat := 0, lng := 0 }
     { lat := 1, lng := 1 } 480).1 (by norm_num)⟩

-- ### Simulate aggregates (C10)

theorem findOptimalRoute_confidence_cases (dist : Point → Point → ℚ)
    (cfg : SimulationConfig) (routes : List RouteSegment) (stops : List TransitStop)
    (origin destination : Point) (t : ℚ) :
    (findOptimalRoute dist cfg routes stops origin destination t).confidence = 9/10 ∨
    (findOptimalRoute dist cfg routes stops origin destination t).confidence = 8/10 ∨
    (findOptimalRoute dist cfg routes stops origin destination t).confidence = 7/10 := by
  simp only [findOptimalRoute]
  split
  · left; rfl
  · split <;>
      first
        | (right; left; rfl)
        | (split <;>
            first
              | (right; right; rfl)
              | (split <;> (right; left; rfl)))

theorem foldl_add_five (l : List TravelTimeResult) :
    ∀ init : ℚ, l.foldl (fun sum _ => sum + 5) init = init + 5 * l.length := by
  induction l with
  | nil => intro init; simp
  | cons x xs ih =>
    intro init
    simp only [List.foldl_cons, List.length_cons]
    rw [ih]
    push_cast
    ring

theorem foldl_confidence_bounds :
    ∀ l : List TravelTimeResult,
      (∀ x ∈ l, 7/10 ≤ x.confidence ∧ x.confidence ≤ 9/10) →
      ∀ init : ℚ,
        init + 7/10 * l.length ≤ l.foldl (fun sum tt => sum + tt.confidence) init ∧
        l.foldl (fun sum tt => sum + tt.confidence) init ≤ init + 9/10 * l.length := by
  intro l
  induction l with
  | nil => intro _ init; simp
  | cons x xs ih =>
    intro h init
    have hx := h x (List.mem_cons_self _ _)
    have hxs := ih (fun y hy => h y (List.mem_cons_of_mem _ hy)) (init + x.confidence)
    simp only [List.foldl_cons, List.length_cons]
    push_cast
    constructor
    · linarith [hxs.1, hx.1]
    · linarith [hxs.2, hx.2]

/-- Claim C10: on a non-empty pair list, `simulate` returns
averageWaitTime 5 when at least one trip is non-walking (the fixed
5-minute wait divided by the non-walking count) and 0 otherwise, and its
confidence is the mean of per-trip confidences, each in [0.7, 0.9], so
the mean lies in [0.7, 0.9].  Non-emptiness matters because the
confidence division has no zero-denominator guard in the source. -/
theorem simulate_aggregates (dist : Point → Point → ℚ) (cfg : SimulationConfig)
    (routes : List RouteSegment) (stops : List TransitStop)
    (pairs : List ODPair) (timeOfDay elapsedMs : ℚ) (hne : pairs ≠ []) :
    ((∃ tt ∈ (simulate dist cfg routes stops pairs timeOfDay elapsedMs).travelTimes,
        tt.mode ≠ TravelMode.walking) →
      (simulate dist cfg routes stops pairs timeOfDay elapsedMs).averageWaitTime = 5) ∧
    ((∀ tt ∈ (simulate dist cfg routes stops pairs timeOfDay elapsedMs).travelTimes,
        tt.mode = TravelMode.walking) →
      (simulate dist cfg routes stops pairs timeOfDay elapsedMs).averageWaitTime = 0) ∧
    7/10 ≤ (simulate dist cfg routes stops pairs timeOfDay elapsedMs).confidence ∧
    (simulate dist cfg routes stops pairs timeOfDay elapsedMs).confidence ≤ 9/10 := by
  simp only [simulate]
  refine ⟨?_, ?_, ?_, ?_⟩
  · intro hex
    rcases hex with ⟨tt, htt, hmode⟩
    have hmem : tt ∈ (pairs.map (fun pair =>
        findOptimalRoute dist cfg routes stops pair.origin pair.destination timeOfDay)).filter
        (fun t => decide (t.mode ≠ TravelMode.walking)) :=
      List.mem_filter.mpr ⟨htt, by simpa using hmode⟩
    have hpos : 0 < ((pairs.map (fun pair =>
        findOptimalRoute dist cfg routes stops pair.origin pair.destination timeOfDay)).filter
        (fun t => decide (t.mode ≠ TravelMode.walking))).length :=
      List.length_pos.mpr (List.ne_nil_of_mem hmem)
    rw [foldl_add_five]
    have h1 : (1 : ℚ) ≤ (((pairs.map (fun pair =>
        findOptimalRoute dist cfg routes stops pair.origin pair.destination timeOfDay)).filter
        (fun t => decide (t.mode ≠ TravelMode.walking))).length : ℚ) := by
      exact_mod_cast hpos
    rw [max_eq_right h1, zero_add]
    have hnz : (((pairs.map (fun pair =>
        findOptimalRoute dist cfg routes stops pair.origin pair.destination timeOfDay)).filter
        (fun t => decide (t.mode ≠ TravelMode.walking))).length : ℚ) ≠ 0 := by
      linarith
    exact mul_div_cancel_right₀ 5 hnz
  · intro hall
    have hnil : (pairs.map (fun pair =>
        findOptimalRoute dist cfg routes stops pair.origin pair.destination timeOfDay)).filter
        (fun t => decide (t.mode ≠ TravelMode.walking)) = [] := by
      apply List.filter_eq_nil.mpr
      intro a ha
      simp [hall a ha]
    rw [hnil]
    simp
  · have hlen : 0 < pairs.length := List.length_pos.mpr hne
    have hlenq : (0 : ℚ) < ((pairs.map (fun pair =>
        findOptimalRoute dist cfg routes stops pair.origin pair.destination timeOfDay)).length : ℚ) := by
      simp only [List.length_map]
      exact_mod_cast hlen
    rw [le_div_iff hlenq]
    have hb := (foldl_confidence_bounds (pairs.map (fun pair =>
        findOptimalRoute dist cfg routes stops pair.origin pair.destination timeOfDay))
      (fun x hx => by
      rcases List.mem_map.mp hx with ⟨pair, _, hpe⟩
      rcases findOptimalRoute_confidence_cases dist cfg routes stops pair.origin
        pair.destination timeOfDay with h | h | h <;>
        rw [← hpe] at * <;> rw [h] <;> norm_num) 0).1
    rw [zero_add] at hb
    linarith [hb]
  · have hlen : 0 < pairs.length := List.length_pos.mpr hne
    have hlenq : (0 : ℚ) < ((pairs.map (fun pair =>
        findOptimalRoute dist cfg routes stops pair.origin pair.destination timeOfDay)).length : ℚ) := by
      simp only [List.length_map]
      exact_mod_cast hlen
    rw [div_le_iff hlenq]
    have hb := (foldl_confidence_bounds (pairs.map (fun pair =>
        findOptimalRoute dist cfg routes stops pair.origin pair.destination timeOfDay))
      (fun x hx => by
      rcases List.mem_map.mp hx with ⟨pair, _, hpe⟩
      rcases findOptimalRoute_confidence_cases dist cfg routes stops pair.origin
        pair.destination timeOfDay with h | h | h <;>
        rw [← hpe] at * <;> rw [h] <;> norm_num) 0).2
    rw [zero_add] at hb
    linarith [hb]

/-- Claim C10 witness: the aggregate theorem on a singleton pair list
with the zero distance function (a single walking trip): wait time 0 and
confidence 0.9 within bounds. -/
theorem simulate_aggregates_witness :
    (simulate (fun _ _ => 0) defaultSimulationConfig [] []
        [{ origin := { lat := 0, lng := 0 }, destination := { lat := 1, lng := 1 } }] 480 0).averageWaitTime = 0 ∧
    7/10 ≤ (simulate (fun _ _ => 0) defaultSimulationConfig [] []
        [{ origin := { lat := 0, lng := 0 }, destination := { lat := 1, lng := 1 } }] 480 0).confidence :=
  ⟨((simulate_aggregates (fun _ _ => 0) defaultSimulationConfig [] []
      [{ origin := { lat := 0, lng := 0 }, destination := { lat := 1, lng := 1 } }] 480 0
      (by simp)).2.1)
      (by
        intro tt htt
        simp only [simulate, List.map_cons, List.map_nil] at htt
        rcases List.mem_singleton.mp htt with rfl
        exact (findOptimalRoute_branches (fun _ _ => 0) defaultSimulationConfig [] []
          { lat := 0, lng := 0 } { lat := 1, lng := 1 } 480).1 (by norm_num) |>.1),
   (simulate_aggregates (fun _ _ => 0) defaultSimulationConfig [] []
      [{ origin := { lat := 0, lng := 0 }, destination := { lat := 1, lng := 1 } }] 480 0
      (by simp)).2.2.1⟩

-- ### Population cap (C1)

theorem createAgentBatch_length (cfg : PedestrianSimConfig) (r : ℕ → ℚ) (now : ℚ)
    (rushHour : Bool) :
    ∀ (trips : List TripPair) (k counter : ℕ),
      (createAgentBatch cfg r now rushHour trips k counter).1.length = trips.length := by
  intro trips
  induction trips with
  | nil => intro k c; rfl
  | cons p ps ih =>
    intro k c
    simp only [createAgentBatch, List.length_cons]
    rw [ih]

theorem generateStopCentricTrips_length (fns : RealFns) (r : ℕ → ℚ)
    (transitStop : TransitStop) (radius : ℚ) :
    ∀ (n k : ℕ), (generateStopCentricTrips fns r transitStop radius n k).1.length = n := by
  intro n
  induction n with
  | zero => intro k; rfl
  | succ m ih =>
    intro k
    simp only [generateStopCentricTrips, List.length_cons]
    rw [ih]

/-- The single transit stop of the cap-violation scenario. -/
def c1Stop : TransitStop :=
  { id := "s1", name := "Stop 1", location := { lat := 0, lng := 0 }, routes := ["r1"],
    type := StopType.bus }

/-- An engine whose population (one agent) is already at the
`maxAgents = 1` cap. -/
def c1Engine : EngineState :=
  { routes := []
    stops := [c1Stop]
    pedestrians := [c6Agent]
    config := defaultSimulationConfig
    pedestrianConfig := cPedConfig
    isRunning := false
    currentTime := 0
    agentCounter := 1 }

/-- Claim C1 is violated by the code: with `maxAgents = 1` and the
population already at the cap, `addPedestrianAgents(5)` clamps the
requested count to the remaining capacity 0, but
`Math.max(1, Math.floor(0 / stops.length))` still assigns one agent to
the stop, so one agent is created and the population grows to 2,
exceeding `maxAgents`. -/
theorem addPedestrianAgents_cap_violation :
    (addPedestrianAgents (fun _ _ => 0) cFnsTrivial (fun _ => 0) 0 c1Engine 5
        false 0).2.1.pedestrians.length = 2 ∧
    c1Engine.pedestrianConfig.maxAgents = 1 ∧
    c1Engine.pedestrians.length = 1 := by
  refine ⟨?_, rfl, rfl⟩
  norm_num [addPedestrianAgents, addAgentsLoop, c1Engine, cPedConfig, c6Agent,
    createAgentBatch_length, generateStopCentricTrips_length, Int.zero_fdiv,
    List.length_append, List.length_map]

-- ### Missing deltaTime validation (C9)

/-- An agent moving with unit velocity, no planned route. -/
def c9Agent : PedestrianAgent :=
  { id := "walker"
    origin := { lat := 0, lng := 0 }
    destination := { lat := 1, lng := 1 }
    walkingSpeed := 60
    currentPosition := { lat := 0, lng := 0 }
    route := Option.none
    velocity := { x := 1, y := 0 }
    agentType := AgentType.normal
    maxSpeed := 120
    targetStop := Option.none
    pathIndex := 0
    weatherSensitivity := 1/2
    crowdAvoidanceRadius := 3/2
    isAtDestination := false
    lastUpdate := 0 }

/-- A running engine with the single moving agent. -/
def c9Engine : EngineState :=
  { routes := []
    stops := []
    pedestrians := [c9Agent]
    config := defaultSimulationConfig
    pedestrianConfig := cPedConfig
    isRunning := true
    currentTime := 0
    agentCounter := 1 }

/-- Claim C9 is violated by the code: `updatePedestrianSimulation(-1)`
performs no validation of the non-positive `deltaTime` and silently
integrates the agent's position backwards (the longitude moves by
-1/111320 degrees), returning a normal state — the method's return type
has no error channel at all. -/
theorem updatePedestrianSimulation_no_validation :
    ((updatePedestrianSimulation (fun _ _ => 0) cFnsTrivial 0 c9Engine (-1)).pedestrians.map
        (fun a => a.currentPosition)) = [{ lat := 0, lng := -1/111320 }] ∧
    c9Agent.currentPosition = { lat := 0, lng := 0 } := by
  constructor
  · norm_num [updatePedestrianSimulation, c9Engine, c9Agent, cPedConfig, sweepAgents,
      updateOneAgent, calculateGoalForce, calculateFlockingForces, separation, alignment,
      cohesion, seek, limit, normalizeVec, toLocalCoords, getObstacleAvoidanceForce,
      updateAgent, cFnsTrivial, cWeatherClear, List.filter]
  · rfl
